import Mathlib

/-!
Shallow embedding of the scraping orchestration core of the `collie`
repository (a ROM metadata scraper), together with proofs about its
specification.

Source files embedded:
- `src/progress.rs` : `ScrapeStatus`, `ScrapeStatus::merge`, `GameData`,
  `GameMetadata`, `GameGuides`, `ScrapingProgress`.
- `src/backoff.rs`  : `BackoffState` (per-scraper exponential backoff map).
- `src/cache.rs`    : `ScrapeCache` marker store and the bounded
  `add_result` history.
- `src/scraping.rs` : `scrape_game_metadata` and `scrape_game_guides`.
- `src/lib.rs`      : the `scrape` session orchestrator loop.

Filesystem and network effects are represented by explicit state:
for each item, the relevant on-disk facts (image file present, number of
files in the guides directory, stored per-item JSON record) are fields of
an environment record, and each provider is a record of pure response
functions (its fixed responses for a given rom name and console).
-/

set_option autoImplicit false

namespace Collie

/-! ## src/progress.rs -/

/-- Status of one scraping track (`ScrapeStatus` in `src/progress.rs`). -/
inductive ScrapeStatus where
  | pending
  | searching
  | success
  | failed
  | skipped
  deriving DecidableEq, Repr, Inhabited

/-- `ScrapeStatus::merge` from `src/progress.rs` lines 16-24.  The Rust
`match` arms are ordered, and the first matching arm wins; the translation
mirrors the arms top-down. -/
def ScrapeStatus.merge : ScrapeStatus → ScrapeStatus → ScrapeStatus
  | .success, _ => .success
  | _, .success => .success
  | .failed, _ => .failed
  | _, .failed => .failed
  | .searching, _ => .searching
  | _, .searching => .searching
  | .pending, _ => .pending
  | _, .pending => .pending
  | .skipped, .skipped => .skipped

/-- Precedence rank used to state the merge-precedence claim:
`Success > Failed > Searching > Pending > Skipped`. -/
def ScrapeStatus.precRank : ScrapeStatus → Nat
  | .skipped => 0
  | .pending => 1
  | .searching => 2
  | .failed => 3
  | .success => 4

/-- Metadata half of a per-item record (`GameMetadata` in `src/progress.rs`). -/
structure GameMetadata where
  status : ScrapeStatus
  name : Option String
  developer : Option String
  publisher : Option String
  genre : Option String
  release_date : Option String
  rating : Option String
  image_path : Option String
  error_message : Option String
  deriving DecidableEq, Repr

/-- Guides half of a per-item record (`GameGuides` in `src/progress.rs`). -/
structure GameGuides where
  status : ScrapeStatus
  count : Option Nat
  deriving DecidableEq, Repr

/-- Per-item result record (`GameData` in `src/progress.rs`). -/
structure GameData where
  rom_name : String
  metadata : GameMetadata
  guides : GameGuides
  deriving DecidableEq, Repr

/-- Run-scoped counters (`ScrapingProgress` in `src/progress.rs`).  Note the
struct has exactly these six fields; in particular it has no `cancelled`
field. -/
structure ScrapingProgress where
  total : Nat
  completed : Nat
  current_rom : Option String
  success_count : Nat
  fail_count : Nat
  skip_count : Nat
  deriving DecidableEq, Repr

/-! ## src/scraper/mod.rs : provider-facing data types -/

namespace Scraper

/-- Provider-side search result (`GameMetadata` in `src/scraper/mod.rs`).
The `f32` rating is held abstractly as the already-formatted string the
orchestrator produces from it (`format!("{:.1}", r)`); nothing in the
orchestration core inspects the number itself. -/
structure GameMetadata where
  name : String
  description : Option String
  release_date : Option String
  developer : Option String
  publisher : Option String
  genre : Option String
  players : Option String
  rating : Option String
  image_url : Option String
  thumbnail_url : Option String
  deriving DecidableEq, Repr

/-- Error taxonomy of a provider call (`ScraperError` in `src/scraper/mod.rs`). -/
inductive ScraperError where
  | network (msg : String)
  | authenticationFailed
  | gameNotFound
  | rateLimitExceeded
  | parseError (msg : String)
  | platformNotSupported
  | ioError
  deriving DecidableEq, Repr

end Scraper

/-! ## src/cache.rs : completion cache -/

/-- Replacement applied per character by the cache key sanitization. -/
def sanitizeChar (c : Char) : Char :=
  if c = '/' ∨ c = '\\' ∨ c = ':' ∨ c = '*' ∨ c = '?' ∨ c = '\"' ∨
     c = '<' ∨ c = '>' ∨ c = '|' then '_' else c

/-- Character sanitization used by `ScrapeCache::get_cache_file_path`:
`str.replace(['/', '\\', ':', '*', '?', '"', '<', '>', '|'], "_")`; each
filesystem-hostile character is replaced by an underscore. -/
def sanitizeName (s : String) : String :=
  ⟨s.data.map sanitizeChar⟩

/-- Marker-file state of the completion cache: the set of sanitized
`(console, rom)` keys whose `.marker` file exists, one component per
category directory (`metadata_not_found` and `guides_not_found`).  A marker
file's presence is the only observable fact, so the state is the key set. -/
structure ScrapeCache where
  metadata_markers : List (String × String)
  guides_markers : List (String × String)
  deriving DecidableEq, Repr

namespace ScrapeCache

/-- Empty cache directory (fresh `init`). -/
def empty : ScrapeCache := ⟨[], []⟩

/-- `ScrapeCache::has_metadata_failed`: the marker path exists. -/
def has_metadata_failed (c : ScrapeCache) (console rom_name : String) : Bool :=
  c.metadata_markers.contains (sanitizeName console, sanitizeName rom_name)

/-- `ScrapeCache::has_guides_failed`. -/
def has_guides_failed (c : ScrapeCache) (console rom_name : String) : Bool :=
  c.guides_markers.contains (sanitizeName console, sanitizeName rom_name)

/-- `ScrapeCache::mark_metadata_not_found`: create the marker file. -/
def mark_metadata_not_found (c : ScrapeCache) (console rom_name : String) : ScrapeCache :=
  { c with metadata_markers :=
      (sanitizeName console, sanitizeName rom_name) :: c.metadata_markers }

/-- `ScrapeCache::mark_guides_not_found`. -/
def mark_guides_not_found (c : ScrapeCache) (console rom_name : String) : ScrapeCache :=
  { c with guides_markers :=
      (sanitizeName console, sanitizeName rom_name) :: c.guides_markers }

/-- `ScrapeCache::clear_metadata_failed`: remove the marker file. -/
def clear_metadata_failed (c : ScrapeCache) (console rom_name : String) : ScrapeCache :=
  let key := (sanitizeName console, sanitizeName rom_name)
  { c with metadata_markers := c.metadata_markers.filter (fun k => k ≠ key) }

/-- `ScrapeCache::clear_guides_failed`. -/
def clear_guides_failed (c : ScrapeCache) (console rom_name : String) : ScrapeCache :=
  let key := (sanitizeName console, sanitizeName rom_name)
  { c with guides_markers := c.guides_markers.filter (fun k => k ≠ key) }

end ScrapeCache

/-- Lightweight recent-result summary (`GameResult` in `src/cache.rs`). -/
structure GameResult where
  rom_name : String
  console : String
  metadata_status : String
  guides_status : String
  timestamp : Nat
  deriving DecidableEq, Repr

/-- `MAX_CACHED_RESULTS` from `src/cache.rs`. -/
def MAX_CACHED_RESULTS : Nat := 10

/-- `ScrapeCache::add_result`: load the stored list, insert the new result
at the front, truncate to `MAX_CACHED_RESULTS`, save.  The stored list is
the explicit state. -/
def add_result (results : List GameResult) (result : GameResult) : List GameResult :=
  (result :: results).take MAX_CACHED_RESULTS

/-! ## src/backoff.rs : per-provider exponential backoff -/

/-- Backoff registry state (`BackoffState` in `src/backoff.rs`): a map from
scraper name to that scraper's current backoff interval in whole seconds.
Absence of a key models absence from the `HashMap`. -/
def BackoffMap := String → Option Nat

/-- `BackoffState::new()`: empty map. -/
def BackoffMap.empty : BackoffMap := fun _ => none

/-- Modelled from the spec: the third-party `backoff` crate's
`ExponentialBackoff::next_backoff`, whose source is outside this
repository, as configured by `BackoffState::get_backoff` in
`src/backoff.rs` (initial interval 1s, randomization factor 0.0,
multiplier 2.0, max interval 300s, no max elapsed time).  The call returns
the current interval (exactly, since randomization is 0.0) and replaces it
by its double, capped at the max interval; with no max elapsed time it
never returns `None`.  `apply_backoff` sleeps for the returned duration.
The function yields the slept duration in seconds and the updated map. -/
def BackoffMap.apply_backoff (m : BackoffMap) (scraper_name : String) : Nat × BackoffMap :=
  let cur := (m scraper_name).getD 1
  (cur, fun k => if k = scraper_name then some (min (2 * cur) 300) else m k)

/-- `BackoffState::reset`: remove the scraper's entry from the map. -/
def BackoffMap.reset (m : BackoffMap) (scraper_name : String) : BackoffMap :=
  fun k => if k = scraper_name then none else m k

/-- State of one scraper's backoff after `k` consecutive `apply_backoff`
calls for it, starting from the empty registry. -/
def backoffIter (scraper_name : String) : Nat → BackoffMap
  | 0 => BackoffMap.empty
  | k + 1 => ((backoffIter scraper_name k).apply_backoff scraper_name).2

/-- Wait duration (seconds) imposed by the `(k+1)`-th consecutive
`apply_backoff` call for a scraper, counting from the empty registry. -/
def backoffWait (scraper_name : String) (k : Nat) : Nat :=
  ((backoffIter scraper_name k).apply_backoff scraper_name).1

/-! ## src/scraping.rs : the per-item processor -/

/-- Run configuration (`ScrapingConfig` in `src/scraping.rs`).  The path
fields are abstract strings; the per-item paths they induce are folded into
`ItemEnv` below. -/
structure ScrapingConfig where
  roms_path : String
  images_folder : String
  guides_folder : String
  box_art_width : Option Nat
  skip_cache : Bool
  deriving DecidableEq, Repr

/-- On-disk environment of one item, as observed by the item processor.
`imageExists` is `image_path.exists()` for the item's box-art path;
`imageMkdirOk` is whether `create_dir_all` on that path's parent succeeds;
`guidesCount` is the number of entries in the item's guides directory
(0 when the directory is absent or empty); `guidesMkdirOk` is whether
`create_dir_all` on the guides directory succeeds; `stored` is the record
returned by `load_game_data`; `apiPath` is the string
`"/api/images/" ++ (image path relative to roms_path)` — the
`strip_prefix` always succeeds because the image path is built under
`roms_path` by the scanner, so it is carried directly. -/
structure ItemEnv where
  imageExists : Bool
  imageMkdirOk : Bool
  guidesCount : Nat
  guidesMkdirOk : Bool
  stored : Option GameData
  apiPath : String
  deriving DecidableEq, Repr

/-- One discovered ROM (`RomFile` restricted to what the processor reads:
its display name, its console's name, and its on-disk environment). -/
structure RomItem where
  name : String
  console : String
  env : ItemEnv
  deriving DecidableEq, Repr

/-- A metadata provider with fixed responses (`dyn MetadataScraper`):
`search` is `search_game` as a function of the rom's identity (name and
console, standing for the path/console pair the Rust passes), and
`download` is the success of `download_image` for a given URL.  Responses
depend only on the rom identity, so they are unchanged across runs over an
unchanged directory. -/
structure MetadataScraperModel where
  name : String
  search : String → String → Except Scraper.ScraperError Scraper.GameMetadata
  download : String → Bool

/-- A guide provider with fixed responses (`dyn GuidesScraper`). -/
structure GuidesScraperModel where
  name : String
  search_guides : String → String → Except Scraper.ScraperError (List String)
  download_guide : String → Bool

/-- Observable outcome of `scrape_game_metadata`: the updated `game_data`,
the function's boolean return, the scrapers whose `search_game` was called
in order (`contacted`), the scrapers that invoked `download_image`
(`downloads`), the backoff pauses taken (`waits`, scraper name and
seconds), the final backoff registry, whether an image file was written to
disk, and whether the final progress message was the
"Not found in any source" one (`tried_any && all_not_found`). -/
structure MetaResult where
  game : GameData
  retval : Bool
  contacted : List String
  downloads : List String
  waits : List (String × Nat)
  backoff : BackoffMap
  imageWritten : Bool
  notFoundMsg : Bool

/-- The provider-fallback loop of `scrape_game_metadata`
(`src/scraping.rs` lines 78-213), one iteration per scraper.
`all_not_found` and `tried_any` are the loop's mutable flags. -/
def scrapeMetaLoop (rom : RomItem) (g : GameData) (b : BackoffMap)
    (all_not_found tried_any : Bool) :
    List MetadataScraperModel → MetaResult
  | [] =>
    -- all scrapers failed: mark as failed
    { game := { g with metadata := { g.metadata with status := .failed } }
      retval := false
      contacted := []
      downloads := []
      waits := []
      backoff := b
      imageWritten := false
      notFoundMsg := tried_any && all_not_found }
  | s :: rest =>
    match s.search rom.name rom.console with
    | .error e =>
      match e with
      | .gameNotFound =>
        -- keep all_not_found as true, `continue`
        let r := scrapeMetaLoop rom g b all_not_found true rest
        { r with contacted := s.name :: r.contacted }
      | .rateLimitExceeded =>
        -- apply exponential backoff immediately; not cacheable; `continue`
        let wb := b.apply_backoff s.name
        let r := scrapeMetaLoop rom g wb.2 false true rest
        { r with contacted := s.name :: r.contacted
                 waits := (s.name, wb.1) :: r.waits }
      | _ =>
        -- any other error: logged, not cacheable, `continue`
        let r := scrapeMetaLoop rom g b false true rest
        { r with contacted := s.name :: r.contacted }
    | .ok md =>
      -- success: reset backoff for this scraper, then take its fields
      let b1 := b.reset s.name
      let g1 := { g with metadata := { g.metadata with
        name := some md.name
        developer := md.developer
        publisher := md.publisher
        genre := md.genre
        release_date := md.release_date
        rating := md.rating } }
      match md.image_url with
      | some url =>
        if !rom.env.imageMkdirOk then
          -- create_dir_all failed: log the error and `continue`
          let r := scrapeMetaLoop rom g1 b1 all_not_found true rest
          { r with contacted := s.name :: r.contacted }
        else if s.download url then
          { game := { g1 with metadata := { g1.metadata with
                status := .success, image_path := some rom.env.apiPath } }
            retval := true
            contacted := [s.name]
            downloads := [s.name]
            waits := []
            backoff := b1
            imageWritten := true
            notFoundMsg := false }
        else
          { game := { g1 with metadata := { g1.metadata with status := .failed } }
            retval := true
            contacted := [s.name]
            downloads := [s.name]
            waits := []
            backoff := b1
            imageWritten := false
            notFoundMsg := false }
      | none =>
        { game := { g1 with metadata := { g1.metadata with status := .failed } }
          retval := true
          contacted := [s.name]
          downloads := []
          waits := []
          backoff := b1
          imageWritten := false
          notFoundMsg := false }

/-- Initial per-item `game_data` built by the orchestrator loop in
`src/lib.rs` lines 91-108. -/
def initGameData (rom_name : String) : GameData :=
  { rom_name := rom_name
    metadata := { status := .pending, name := none, developer := none,
                  publisher := none, genre := none, release_date := none,
                  rating := none, image_path := none, error_message := none }
    guides := { status := .pending, count := none } }

/-- `scrape_game_metadata` from `src/scraping.rs`: skip when the image
already exists (unless `skip_cache`), bail out when no scrapers are
configured, otherwise run the fallback loop. -/
def scrape_game_metadata (scrapers : List MetadataScraperModel)
    (config : ScrapingConfig) (rom : RomItem) (g : GameData) (b : BackoffMap) :
    MetaResult :=
  if !config.skip_cache && !scrapers.isEmpty && rom.env.imageExists then
    -- image already exists: load stored fields, mark Skipped, set api path
    let g1 :=
      match rom.env.stored with
      | some existing =>
        { g with metadata := { g.metadata with
            name := existing.metadata.name
            developer := existing.metadata.developer
            publisher := existing.metadata.publisher
            genre := existing.metadata.genre
            release_date := existing.metadata.release_date
            rating := existing.metadata.rating } }
      | none => g
    { game := { g1 with metadata := { g1.metadata with
          status := .skipped, image_path := some rom.env.apiPath } }
      retval := true
      contacted := []
      downloads := []
      waits := []
      backoff := b
      imageWritten := false
      notFoundMsg := false }
  else if scrapers.isEmpty then
    { game := g, retval := false, contacted := [], downloads := [],
      waits := [], backoff := b, imageWritten := false, notFoundMsg := false }
  else
    scrapeMetaLoop rom
      { g with metadata := { g.metadata with status := .searching } }
      b true false scrapers

/-- Observable outcome of `scrape_game_guides`: updated `game_data`, the
guide scrapers contacted, backoff pauses, final backoff registry, and the
number of guide files written to the item's guides directory. -/
structure GuidesResult where
  game : GameData
  contacted : List String
  waits : List (String × Nat)
  backoff : BackoffMap
  guidesWritten : Nat

/-- The provider loop of `scrape_game_guides`
(`src/scraping.rs` lines 274-371). -/
def scrapeGuidesLoop (rom : RomItem) (g : GameData) (b : BackoffMap) :
    List GuidesScraperModel → GuidesResult
  | [] => { game := g, contacted := [], waits := [], backoff := b, guidesWritten := 0 }
  | s :: rest =>
    match s.search_guides rom.name rom.console with
    | .ok guide_paths =>
      if guide_paths.isEmpty then
        -- no guides found: status Failed, keep trying the next scraper
        let g1 := { g with guides := { g.guides with status := .failed } }
        let r := scrapeGuidesLoop rom g1 b rest
        { r with contacted := s.name :: r.contacted }
      else
        -- non-empty list: reset backoff, status Success, download each guide
        let b1 := b.reset s.name
        let g1 := { g with guides := { g.guides with status := .success } }
        if !rom.env.guidesMkdirOk then
          -- create_dir_all failed: warn and return (status stays Success)
          { game := g1, contacted := [s.name], waits := [], backoff := b1,
            guidesWritten := 0 }
        else
          -- individual download failures are logged and skipped
          { game := g1, contacted := [s.name], waits := [], backoff := b1,
            guidesWritten := (guide_paths.filter s.download_guide).length }
    | .error e =>
      match e with
      | .rateLimitExceeded =>
        let wb := b.apply_backoff s.name
        let g1 := { g with guides := { g.guides with status := .failed } }
        let r := scrapeGuidesLoop rom g1 wb.2 rest
        { r with contacted := s.name :: r.contacted
                 waits := (s.name, wb.1) :: r.waits }
      | _ =>
        let g1 := { g with guides := { g.guides with status := .failed } }
        let r := scrapeGuidesLoop rom g1 b rest
        { r with contacted := s.name :: r.contacted }

/-- `scrape_game_guides` from `src/scraping.rs`: skip when the guides
directory already has entries (unless `skip_cache`), else search guide
scrapers in order.  The Rust reads the directory twice (existence check and
recount); nothing changes it in between, so one count is used. -/
def scrape_game_guides (guides_scrapers : List GuidesScraperModel)
    (config : ScrapingConfig) (rom : RomItem) (g : GameData) (b : BackoffMap) :
    GuidesResult :=
  if !config.skip_cache && decide (0 < rom.env.guidesCount) then
    let count := rom.env.guidesCount
    let newCount :=
      match rom.env.stored with
      | some existing =>
        if existing.guides.count.isSome then existing.guides.count else some count
      | none => some count
    { game := { g with guides := { status := .skipped, count := newCount } }
      contacted := [], waits := [], backoff := b, guidesWritten := 0 }
  else
    scrapeGuidesLoop rom
      { g with guides := { g.guides with status := .searching } }
      b guides_scrapers

/-! ## src/lib.rs : the session orchestrator -/

/-- Mutable state of the orchestrator loop: the progress counters, the
backoff registry, the completion cache (which the loop never touches), and
the durable outputs — the per-item records written by `save_game_data` in
processing order, the `games.txt` index lines, the `crawled` log lines, and
the rom items with their on-disk environment as the run leaves it
(image written, guide files added, record stored). -/
structure ScrapeState where
  progress : ScrapingProgress
  backoff : BackoffMap
  cache : ScrapeCache
  records : List GameData
  indexAppends : List String
  crawledAppends : List String
  updatedRoms : List RomItem

/-- On-disk environment of a rom after its item was processed: the image
file persists if it was written, downloaded guide files are added to the
guides directory, and `save_game_data` stored the item's record. -/
def updateRom (rom : RomItem) (imageWritten : Bool) (guidesWritten : Nat)
    (g : GameData) : RomItem :=
  { rom with env := { rom.env with
      imageExists := rom.env.imageExists || imageWritten
      guidesCount := rom.env.guidesCount + guidesWritten
      stored := some g } }

/-- Body of one iteration of the orchestrator loop (`src/lib.rs` lines
117-151): metadata track, then guides track if any guide scraper is
configured, then the merged per-item status.  Returns the final
`game_data`, the merged status, the backoff registry, whether the image
was written, and how many guide files were written. -/
def processRom (ms : List MetadataScraperModel) (gs : List GuidesScraperModel)
    (config : ScrapingConfig) (rom : RomItem) (b : BackoffMap) :
    GameData × ScrapeStatus × BackoffMap × Bool × Nat :=
  let m := scrape_game_metadata ms config rom (initGameData rom.name) b
  if gs.isEmpty then
    (m.game, m.game.metadata.status, m.backoff, m.imageWritten, 0)
  else
    let r := scrape_game_guides gs config rom m.game m.backoff
    (r.game, r.game.metadata.status.merge r.game.guides.status, r.backoff,
     m.imageWritten, r.guidesWritten)

/-- One full iteration of the orchestrator loop after the cancellation
check: process the rom, fold its status into the counters, persist the
record and the two append-only logs. -/
def scrapeStep (ms : List MetadataScraperModel) (gs : List GuidesScraperModel)
    (config : ScrapingConfig) (st : ScrapeState) (rom : RomItem) : ScrapeState :=
  let p1 := { st.progress with current_rom := some rom.name }
  let res := processRom ms gs config rom st.backoff
  let p2 :=
    if res.2.1 = .success then
      { p1 with success_count := p1.success_count + 1 }
    else if res.2.1 = .skipped then
      { p1 with skip_count := p1.skip_count + 1 }
    else
      { p1 with fail_count := p1.fail_count + 1 }
  { progress := { p2 with completed := p2.completed + 1 }
    backoff := res.2.2.1
    cache := st.cache
    records := st.records ++ [res.1]
    indexAppends := st.indexAppends ++ [res.1.rom_name]
    crawledAppends := st.crawledAppends ++ [rom.console ++ "/" ++ rom.name]
    updatedRoms := st.updatedRoms ++ [updateRom rom res.2.2.2.1 res.2.2.2.2 res.1] }

/-- The orchestrator loop of `scrape` (`src/lib.rs` lines 65-168).
`cancel i` is whether `cancel_token.is_cancelled()` holds at the check that
precedes processing the `(i+1)`-th item (`i` items completed so far).  The
returned boolean is the loop's `cancelled` local. -/
def scrapeLoop (ms : List MetadataScraperModel) (gs : List GuidesScraperModel)
    (config : ScrapingConfig) (cancel : Nat → Bool) :
    List RomItem → ScrapeState → ScrapeState × Bool
  | [], st => (st, false)
  | rom :: rest, st =>
    if cancel st.progress.completed then (st, true)
    else scrapeLoop ms gs config cancel rest (scrapeStep ms gs config st rom)

/-- Value produced by a whole `scrape` run: the returned
`ScrapingProgress`, the `cancelled` local (visible only in log/progress
messages), the status word of the final messages ("Cancelled" or
"Complete"), and the durable outputs. -/
structure ScrapeOutput where
  progress : ScrapingProgress
  cancelled : Bool
  statusWord : String
  records : List GameData
  indexAppends : List String
  crawledAppends : List String
  updatedRoms : List RomItem
  cache : ScrapeCache
  backoff : BackoffMap

/-- `scrape` from `src/lib.rs`: fresh backoff registry, counters
initialized with `total = number of scanned roms`, the loop, then the final
summary.  The scanner and console configuration are external
collaborators; their output is the `roms` list. -/
def scrape (ms : List MetadataScraperModel) (gs : List GuidesScraperModel)
    (config : ScrapingConfig) (cancel : Nat → Bool) (roms : List RomItem)
    (cache0 : ScrapeCache) : ScrapeOutput :=
  let st0 : ScrapeState :=
    { progress := { total := roms.length, completed := 0, current_rom := none,
                    success_count := 0, fail_count := 0, skip_count := 0 }
      backoff := BackoffMap.empty
      cache := cache0
      records := []
      indexAppends := []
      crawledAppends := []
      updatedRoms := [] }
  let r := scrapeLoop ms gs config cancel roms st0
  { progress := { r.1.progress with current_rom := none }
    cancelled := r.2
    statusWord := if r.2 then "Cancelled" else "Complete"
    records := r.1.records
    indexAppends := r.1.indexAppends
    crawledAppends := r.1.crawledAppends
    updatedRoms := r.1.updatedRoms
    cache := r.1.cache
    backoff := r.1.backoff }

/-! ## Concrete scenario data used by witnesses and counterexamples -/

/-- Concrete result used by the C8 witness. -/
def sampleResult (i : Nat) : GameResult :=
  { rom_name := toString i, console := "NES", metadata_status := "success",
    guides_status := "failed", timestamp := i }

/-- Metadata result used by several concrete scenarios: a hit with text
fields and an image URL. -/
def mdImage : Scraper.GameMetadata :=
  { name := "Zelda", description := none, release_date := some "1986-02-21",
    developer := some "Nintendo", publisher := some "Nintendo",
    genre := some "Action", players := none, rating := some "4.5",
    image_url := some "http://img/zelda.png", thumbnail_url := none }

/-- Scraper "A": always finds `mdImage`; downloads succeed. -/
def scraperA : MetadataScraperModel :=
  { name := "A", search := fun _ _ => .ok mdImage, download := fun _ => true }

/-- Scraper "B": same responses as "A", used as the later scraper. -/
def scraperB : MetadataScraperModel :=
  { name := "B", search := fun _ _ => .ok mdImage, download := fun _ => true }

/-- Scraper "NF": search always reports the game as not found. -/
def scraperNF : MetadataScraperModel :=
  { name := "NF", search := fun _ _ => .error .gameNotFound,
    download := fun _ => true }

/-- Scraper "Mix": finds "Mario" (with an image URL), reports any other
rom as not found; downloads succeed. -/
def scraperMix : MetadataScraperModel :=
  { name := "Mix",
    search := fun n _ => if n = "Mario" then .ok mdImage else .error .gameNotFound,
    download := fun _ => true }

/-- Item whose image directory cannot be created (`create_dir_all` fails),
with no image on disk yet. -/
def romMkdirFail : RomItem :=
  { name := "Zelda", console := "NES",
    env := { imageExists := false, imageMkdirOk := false, guidesCount := 0,
             guidesMkdirOk := true, stored := none,
             apiPath := "/api/images/NES/images/Zelda.png" } }

/-- Item with a healthy filesystem and no image on disk yet. -/
def romFresh : RomItem :=
  { name := "Zelda", console := "NES",
    env := { imageExists := false, imageMkdirOk := true, guidesCount := 0,
             guidesMkdirOk := true, stored := none,
             apiPath := "/api/images/NES/images/Zelda.png" } }

/-- A second healthy item, distinct from `romFresh`, that "Mix" finds. -/
def romMario : RomItem :=
  { name := "Mario", console := "NES",
    env := { imageExists := false, imageMkdirOk := true, guidesCount := 0,
             guidesMkdirOk := true, stored := none,
             apiPath := "/api/images/NES/images/Mario.png" } }

/-- Default run configuration with the cache honoured. -/
def cfgDefault : ScrapingConfig :=
  { roms_path := "/roms", images_folder := "images", guides_folder := "guides",
    box_art_width := none, skip_cache := false }

/-- Record, merged status, image flag and guide count of one item,
independent of loop position (computed against the fresh registry). -/
def itemOutcome (ms : List MetadataScraperModel) (gs : List GuidesScraperModel)
    (config : ScrapingConfig) (rom : RomItem) :
    GameData × ScrapeStatus × Bool × Nat :=
  ((processRom ms gs config rom BackoffMap.empty).1,
   (processRom ms gs config rom BackoffMap.empty).2.1,
   (processRom ms gs config rom BackoffMap.empty).2.2.2.1,
   (processRom ms gs config rom BackoffMap.empty).2.2.2.2)

/-- On-disk state of a rom after its item is processed, as a function of
the rom alone. -/
def updatedRomOf (ms : List MetadataScraperModel) (gs : List GuidesScraperModel)
    (config : ScrapingConfig) (rom : RomItem) : RomItem :=
  updateRom rom (itemOutcome ms gs config rom).2.2.1
    (itemOutcome ms gs config rom).2.2.2 (itemOutcome ms gs config rom).1

/-- First-run record of the C2 witness scenario. -/
def rec1W : GameData :=
  { rom_name := "Zelda"
    metadata := { status := .success, name := some "Zelda",
                  developer := some "Nintendo", publisher := some "Nintendo",
                  genre := some "Action", release_date := some "1986-02-21",
                  rating := some "4.5",
                  image_path := some "/api/images/NES/images/Zelda.png",
                  error_message := none }
    guides := { status := .pending, count := none } }

/-- Post-first-run on-disk state of the C2 witness scenario. -/
def rom2W : RomItem :=
  { name := "Zelda", console := "NES",
    env := { imageExists := true, imageMkdirOk := true, guidesCount := 0,
             guidesMkdirOk := true, stored := some rec1W,
             apiPath := "/api/images/NES/images/Zelda.png" } }

/-! ## Claim C1 : merge algebra -/

/-- C1.  The status merge function is commutative, `Success` and `Failed`
are absorbing in the stated precedence (`merge(Success, X) = Success` for
all `X`; `merge(Failed, X) = Failed` unless `X = Success`;
`merge(Skipped, Skipped) = Skipped`), and merge realizes the precedence
order `Success > Failed > Searching > Pending > Skipped`: the merged value
is one of the two arguments and its precedence rank is the maximum of the
two ranks (so `Skipped` only results when both sides are `Skipped`). -/
theorem merge_commutative_absorbing :
    (∀ x : ScrapeStatus, ScrapeStatus.merge .success x = .success) ∧
    (∀ x : ScrapeStatus, x ≠ .success → ScrapeStatus.merge .failed x = .failed) ∧
    ScrapeStatus.merge .skipped .skipped = .skipped ∧
    (∀ x y : ScrapeStatus, x.merge y = y.merge x) ∧
    (∀ x y : ScrapeStatus, (x.merge y).precRank = max x.precRank y.precRank ∧
      (x.merge y = x ∨ x.merge y = y)) := by
  refine ⟨?_, ?_, rfl, ?_, ?_⟩
  · intro x; cases x <;> rfl
  · intro x hx; cases x <;> first | rfl | exact absurd rfl hx
  · intro x y; cases x <;> cases y <;> rfl
  · intro x y; cases x <;> cases y <;> exact ⟨by decide, by decide⟩

/-- Witness for C1: the `Failed`-absorption clause applied at
`X = Pending`. -/
theorem merge_commutative_absorbing_witness :
    (ScrapeStatus.pending ≠ ScrapeStatus.success) ∧
    ScrapeStatus.merge .failed .pending = .failed :=
  ⟨by decide, merge_commutative_absorbing.2.1 .pending (by decide)⟩

/-! ## Claim C7 : completion cache correctness -/

/-- C7.  Marking `(metadata, "NES", "Zelda")` as not found makes
`has_metadata_failed` true for that key while leaving the guides category
untouched (`has_guides_failed` stays false from a fresh cache), and
clearing the key makes `has_metadata_failed` false again.  The first
conjunct states the general laws (mark sets the query, the guides marker
set is unchanged, clear unsets the query) for every cache state and key;
the second instantiates the claim's concrete scenario from a fresh cache. -/
theorem cache_mark_clear_independent :
    (∀ (c : ScrapeCache) (console rom : String),
        (c.mark_metadata_not_found console rom).has_metadata_failed console rom = true ∧
        (c.mark_metadata_not_found console rom).guides_markers = c.guides_markers ∧
        ((c.mark_metadata_not_found console rom).clear_metadata_failed console rom).has_metadata_failed
          console rom = false) ∧
    ((ScrapeCache.empty.mark_metadata_not_found "NES" "Zelda").has_metadata_failed
        "NES" "Zelda" = true ∧
      (ScrapeCache.empty.mark_metadata_not_found "NES" "Zelda").has_guides_failed
        "NES" "Zelda" = false ∧
      ((ScrapeCache.empty.mark_metadata_not_found "NES" "Zelda").clear_metadata_failed
          "NES" "Zelda").has_metadata_failed "NES" "Zelda" = false) := by
  constructor
  · intro c console rom
    refine ⟨?_, rfl, ?_⟩
    · simp [ScrapeCache.has_metadata_failed, ScrapeCache.mark_metadata_not_found,
        List.contains_cons]
    · simp [ScrapeCache.has_metadata_failed, ScrapeCache.mark_metadata_not_found,
        ScrapeCache.clear_metadata_failed, List.contains, List.elem_eq_mem,
        List.mem_filter]
  · exact ⟨by decide, by decide, by decide⟩

/-! ## Claim C8 : bounded recent-results history -/

/-- Folding `add_result` keeps the most recent `MAX_CACHED_RESULTS`
insertions, newest first: the stored list is the reversed insertion order
truncated to 10. -/
theorem foldl_add_result_take (rs : List GameResult) (init : List GameResult)
    (h : init.length ≤ 10) :
    rs.foldl add_result init = (rs.reverse ++ init).take 10 := by
  induction rs generalizing init with
  | nil => simpa using (List.take_of_length_le h).symm
  | cons r rs ih =>
    have hlen : (add_result init r).length ≤ 10 := by
      simp only [add_result, MAX_CACHED_RESULTS, List.length_take]
      omega
    calc List.foldl add_result init (r :: rs)
        = List.foldl add_result (add_result init r) rs := rfl
      _ = (rs.reverse ++ add_result init r).take 10 := ih _ hlen
      _ = ((r :: rs).reverse ++ init).take 10 := by
          rw [List.reverse_cons, List.append_assoc, List.singleton_append,
            List.take_append_eq_append_take,
            @List.take_append_eq_append_take _ rs.reverse (r :: init) 10, add_result,
            MAX_CACHED_RESULTS, List.take_take]
          congr 1
          have : min (10 - rs.reverse.length) 10 = 10 - rs.reverse.length := by
            omega
          rw [this]

/-- C8.  Starting from an empty store, inserting 15 results via
`add_result` leaves exactly 10 stored, newest insertion first
(the stored list is the reversal of the insertion order truncated to 10),
and the 5 oldest insertions are evicted (what remains is exactly the last
10 insertions, newest first). -/
theorem add_result_bounded_history (rs : List GameResult) (h : rs.length = 15) :
    (rs.foldl add_result []).length = 10 ∧
    rs.foldl add_result [] = rs.reverse.take 10 ∧
    rs.foldl add_result [] = (rs.drop 5).reverse := by
  have key : rs.foldl add_result [] = rs.reverse.take 10 := by
    simpa using foldl_add_result_take rs [] (by simp)
  refine ⟨?_, key, ?_⟩
  · rw [key]; simp [h]
  · rw [key]
    have hsplit : rs.reverse = (rs.drop 5).reverse ++ (rs.take 5).reverse := by
      rw [← List.reverse_append, List.take_append_drop]
    rw [hsplit, List.take_left' (by simp [h])]

/-- Witness for C8: 15 concrete results inserted into an empty store leave
exactly 10. -/
theorem add_result_bounded_history_witness :
    ((List.range 15).map sampleResult).length = 15 ∧
    (((List.range 15).map sampleResult).foldl add_result []).length = 10 :=
  ⟨by simp, (add_result_bounded_history _ (by simp)).1⟩

/-! ## Claim C6 : backoff doubling, cap, reset -/

/-- State of a scraper's backoff entry after `k` consecutive applications:
absent for `k = 0`, otherwise the doubled-and-capped interval. -/
theorem backoffIter_self (name : String) (k : Nat) :
    backoffIter name k name = if k = 0 then none else some (min (2 ^ k) 300) := by
  induction k with
  | zero => rfl
  | succ k ih =>
    have step : backoffIter name (k + 1) name
        = some (min (2 * ((backoffIter name k name).getD 1)) 300) := by
      show (((backoffIter name k).apply_backoff name).2) name = _
      simp [BackoffMap.apply_backoff]
    rw [step, ih, if_neg (Nat.succ_ne_zero k)]
    rcases Nat.eq_zero_or_pos k with hk | hk
    · subst hk; norm_num
    · rw [if_neg (Nat.pos_iff_ne_zero.mp hk), Option.getD_some]
      have h2 : (2 : Nat) ^ (k + 1) = 2 * 2 ^ k := by ring
      rw [h2]
      congr 1
      omega

/-- Closed form of the consecutive wait sequence:
`min (2 ^ k) 300` seconds for the `(k+1)`-th consecutive rate-limit. -/
theorem backoffWait_eq (name : String) (k : Nat) :
    backoffWait name k = min (2 ^ k) 300 := by
  unfold backoffWait
  show ((backoffIter name k) name).getD 1 = _
  rw [backoffIter_self]
  rcases Nat.eq_zero_or_pos k with hk | hk
  · subst hk; norm_num
  · rw [if_neg (by omega), Option.getD_some]

/-- C6.  Successive rate-limit signals for one provider (consecutive
`apply_backoff` calls with no intervening reset, starting from the fresh
registry) wait `min (2 ^ k) 300` seconds at the `(k+1)`-th signal: the
sequence starts at 1 second, doubles while under the cap, is
non-decreasing, and is capped at 300 seconds (and, having no overall
deadline, every call produces a wait).  `reset` clears the provider's
state, so the next wait after a success is back at the 1 second floor, and
backoff applied to one provider leaves every other provider's state
unchanged. -/
theorem backoff_doubling_capped_resets :
    (∀ (name : String) (k : Nat), backoffWait name k = min (2 ^ k) 300) ∧
    (∀ name : String, backoffWait name 0 = 1) ∧
    (∀ (name : String) (k : Nat), backoffWait name k ≤ backoffWait name (k + 1)) ∧
    (∀ (name : String) (k : Nat), backoffWait name k ≤ 300) ∧
    (∀ (m : BackoffMap) (name : String), ((m.reset name).apply_backoff name).1 = 1) ∧
    (∀ (m : BackoffMap) (name other : String), name ≠ other →
      ((m.apply_backoff other).2) name = m name) := by
  refine ⟨backoffWait_eq, ?_, ?_, ?_, ?_, ?_⟩
  · intro name; rw [backoffWait_eq]; norm_num
  · intro name k
    rw [backoffWait_eq, backoffWait_eq]
    have hp : (2 : Nat) ^ k ≤ 2 ^ (k + 1) :=
      Nat.pow_le_pow_right (by norm_num) (Nat.le_succ k)
    omega
  · intro name k; rw [backoffWait_eq]; omega
  · intro m name
    simp [BackoffMap.apply_backoff, BackoffMap.reset]
  · intro m name other h
    simp [BackoffMap.apply_backoff, if_neg h]

/-- Witness for C6: the provider-independence clause at two distinct
concrete provider names, plus a concrete wait value. -/
theorem backoff_doubling_capped_resets_witness :
    backoffWait "screenscraper" 3 = min (2 ^ 3) 300 ∧
    ((BackoffMap.empty.apply_backoff "thegamesdb").2) "screenscraper" =
      BackoffMap.empty "screenscraper" ∧
    ("screenscraper" : String) ≠ "thegamesdb" :=
  ⟨backoff_doubling_capped_resets.1 "screenscraper" 3,
   backoff_doubling_capped_resets.2.2.2.2.2 _ _ _ (by decide),
   by decide⟩

/-! ## Helper lemmas on the metadata fallback loop -/

/-- When the head scraper's search succeeds and — in case the result has an
image URL — the image directory creation succeeds, the loop terminates at
that scraper: it alone is contacted, the return value is `true`, and the
scraper's backoff entry ends up cleared by the reset on success. -/
theorem scrapeMetaLoop_ok_head (rom : RomItem) (md : Scraper.GameMetadata)
    (s : MetadataScraperModel) (post : List MetadataScraperModel)
    (g : GameData) (b : BackoffMap) (anf ta : Bool)
    (hs : s.search rom.name rom.console = .ok md)
    (hok : md.image_url = none ∨ rom.env.imageMkdirOk = true) :
    (scrapeMetaLoop rom g b anf ta (s :: post)).contacted = [s.name] ∧
    (scrapeMetaLoop rom g b anf ta (s :: post)).retval = true ∧
    (scrapeMetaLoop rom g b anf ta (s :: post)).backoff s.name = none := by
  simp only [scrapeMetaLoop, hs]
  cases himg : md.image_url with
  | none => simp [BackoffMap.reset]
  | some url =>
    have hmk : rom.env.imageMkdirOk = true := by
      rcases hok with h | h
      · rw [himg] at h; cases h
      · exact h
    rw [hmk]
    cases hdl : s.download url <;> simp [BackoffMap.reset, hdl]

/-- C4 core: with a list of configured scrapers in which every scraper
before `s` fails its search and `s` succeeds (and the image directory can
be created when needed), the fallback loop contacts exactly the failing
scrapers and then `s`, stops there (no scraper in `post` is contacted),
returns `true`, and leaves `s`'s backoff entry reset. -/
theorem scrapeMetaLoop_first_success (rom : RomItem) (md : Scraper.GameMetadata)
    (s : MetadataScraperModel) (post : List MetadataScraperModel)
    (hs : s.search rom.name rom.console = .ok md)
    (hok : md.image_url = none ∨ rom.env.imageMkdirOk = true) :
    ∀ (pre : List MetadataScraperModel),
      (∀ t ∈ pre, ∃ e, t.search rom.name rom.console = .error e) →
      ∀ (g : GameData) (b : BackoffMap) (anf ta : Bool),
      (scrapeMetaLoop rom g b anf ta (pre ++ s :: post)).contacted
          = pre.map (fun t => t.name) ++ [s.name] ∧
      (scrapeMetaLoop rom g b anf ta (pre ++ s :: post)).retval = true ∧
      (scrapeMetaLoop rom g b anf ta (pre ++ s :: post)).backoff s.name = none := by
  intro pre
  induction pre with
  | nil =>
    intro _ g b anf ta
    simpa using scrapeMetaLoop_ok_head rom md s post g b anf ta hs hok
  | cons t pre ih =>
    intro hpre g b anf ta
    obtain ⟨e, he⟩ := hpre t (List.mem_cons_self t pre)
    have hpre' : ∀ u ∈ pre, ∃ e, u.search rom.name rom.console = .error e :=
      fun u hu => hpre u (List.mem_cons_of_mem t hu)
    simp only [List.cons_append, scrapeMetaLoop, he]
    cases e <;> (simp [List.map_cons]; exact ih hpre' _ _ _ _)

/-- C5 core: at the first scraper whose search succeeds, the resolved text
metadata fields are set from the result; with an image URL (and a creatable
image directory) the download is attempted and decides Success/Failed while
the text fields remain set; with no image URL the status is Failed and no
download is attempted. -/
theorem scrapeMetaLoop_first_success_fields (rom : RomItem)
    (md : Scraper.GameMetadata) (s : MetadataScraperModel)
    (post : List MetadataScraperModel)
    (hs : s.search rom.name rom.console = .ok md)
    (hok : md.image_url = none ∨ rom.env.imageMkdirOk = true) :
    ∀ (pre : List MetadataScraperModel),
      (∀ t ∈ pre, ∃ e, t.search rom.name rom.console = .error e) →
      ∀ (g : GameData) (b : BackoffMap) (anf ta : Bool),
      (scrapeMetaLoop rom g b anf ta (pre ++ s :: post)).game.metadata.name
          = some md.name ∧
      (scrapeMetaLoop rom g b anf ta (pre ++ s :: post)).game.metadata.developer
          = md.developer ∧
      (scrapeMetaLoop rom g b anf ta (pre ++ s :: post)).game.metadata.publisher
          = md.publisher ∧
      (scrapeMetaLoop rom g b anf ta (pre ++ s :: post)).game.metadata.genre
          = md.genre ∧
      (scrapeMetaLoop rom g b anf ta (pre ++ s :: post)).game.metadata.release_date
          = md.release_date ∧
      (scrapeMetaLoop rom g b anf ta (pre ++ s :: post)).game.metadata.rating
          = md.rating ∧
      (∀ url, md.image_url = some url →
        (scrapeMetaLoop rom g b anf ta (pre ++ s :: post)).downloads = [s.name] ∧
        (scrapeMetaLoop rom g b anf ta (pre ++ s :: post)).game.metadata.status
            = (if s.download url then .success else .failed) ∧
        (s.download url = true →
          (scrapeMetaLoop rom g b anf ta (pre ++ s :: post)).game.metadata.image_path
              = some rom.env.apiPath ∧
          (scrapeMetaLoop rom g b anf ta (pre ++ s :: post)).imageWritten = true)) ∧
      (md.image_url = none →
        (scrapeMetaLoop rom g b anf ta (pre ++ s :: post)).downloads = [] ∧
        (scrapeMetaLoop rom g b anf ta (pre ++ s :: post)).game.metadata.status
            = .failed ∧
        (scrapeMetaLoop rom g b anf ta (pre ++ s :: post)).imageWritten = false) := by
  intro pre
  induction pre with
  | nil =>
    intro _ g b anf ta
    simp only [List.nil_append, scrapeMetaLoop, hs]
    cases himg : md.image_url with
    | none => simp [himg]
    | some url =>
      have hmk : rom.env.imageMkdirOk = true := by
        rcases hok with h | h
        · rw [himg] at h; cases h
        · exact h
      rw [hmk]
      cases hdl : s.download url <;> simp [himg, hdl]
  | cons t pre ih =>
    intro hpre g b anf ta
    obtain ⟨e, he⟩ := hpre t (List.mem_cons_self t pre)
    have hpre' : ∀ u ∈ pre, ∃ e, u.search rom.name rom.console = .error e :=
      fun u hu => hpre u (List.mem_cons_of_mem t hu)
    simp only [List.cons_append, scrapeMetaLoop, he]
    cases e <;> (simp; exact ih hpre' _ _ _ _)

/-! ## Claim C4 : first usable result stops the fallback iteration -/

/-- C4, amended.  When every metadata scraper before `s` fails its search,
`s`'s search succeeds, and — in case the result carries an image URL — the
image directory creation succeeds, the fallback iteration of
`scrape_game_metadata` (entered because the image does not already exist
and the cache is not skipped) contacts exactly the failing scrapers
followed by `s`, contacts no scraper after `s`, returns `true`, and leaves
`s`'s backoff state reset (its registry entry is absent afterwards).  The
proviso about the image directory is forced by the source: a failed
`create_dir_all` makes the loop `continue` to the next scraper. -/
theorem fallback_first_success_stops (config : ScrapingConfig) (rom : RomItem)
    (g : GameData) (b : BackoffMap)
    (pre post : List MetadataScraperModel) (s : MetadataScraperModel)
    (md : Scraper.GameMetadata)
    (hc : config.skip_cache = false) (hi : rom.env.imageExists = false)
    (hpre : ∀ t ∈ pre, ∃ e, t.search rom.name rom.console = .error e)
    (hs : s.search rom.name rom.console = .ok md)
    (hok : md.image_url = none ∨ rom.env.imageMkdirOk = true) :
    (scrape_game_metadata (pre ++ s :: post) config rom g b).contacted
        = pre.map (fun t => t.name) ++ [s.name] ∧
    (scrape_game_metadata (pre ++ s :: post) config rom g b).retval = true ∧
    (scrape_game_metadata (pre ++ s :: post) config rom g b).backoff s.name = none := by
  have hne : (pre ++ s :: post).isEmpty = false := by cases pre <;> rfl
  have := scrapeMetaLoop_first_success rom md s post hs hok pre hpre
    { g with metadata := { g.metadata with status := .searching } } b true false
  simpa [scrape_game_metadata, hc, hi, hne] using this

/-- Counterexample to C4 as stated: scraper "A"'s search returns a usable
result carrying an image URL, yet because the image directory creation
fails the loop continues and contacts scraper "B" as well — a provider
later in the configured order is contacted after the first usable
result. -/
theorem fallback_first_success_counterexample :
    scraperA.search romMkdirFail.name romMkdirFail.console = .ok mdImage ∧
    mdImage.image_url = some "http://img/zelda.png" ∧
    (scrape_game_metadata [scraperA, scraperB] cfgDefault romMkdirFail
        (initGameData romMkdirFail.name) BackoffMap.empty).contacted = ["A", "B"] :=
  ⟨rfl, rfl, rfl⟩

/-- Witness for C4: one not-found scraper, then "A" succeeding; only
["NF", "A"] are contacted and "A"'s backoff entry is cleared. -/
theorem fallback_first_success_stops_witness :
    (scrape_game_metadata [scraperNF, scraperA, scraperB] cfgDefault romFresh
        (initGameData romFresh.name) BackoffMap.empty).contacted = ["NF", "A"] ∧
    (scrape_game_metadata [scraperNF, scraperA, scraperB] cfgDefault romFresh
        (initGameData romFresh.name) BackoffMap.empty).backoff "A" = none := by
  have h := fallback_first_success_stops cfgDefault romFresh
    (initGameData romFresh.name) BackoffMap.empty [scraperNF] [scraperB] scraperA
    mdImage rfl rfl
    (by intro t ht
        simp only [List.mem_singleton] at ht
        subst ht
        exact ⟨.gameNotFound, rfl⟩)
    rfl (Or.inr rfl)
  exact ⟨h.1, h.2.2⟩

/-! ## Claim C5 : download decides Success/Failed, fields are kept -/

/-- C5, amended.  For an item whose metadata search succeeds at scraper `s`
(after any failing scrapers): the resolved text fields (name, developer,
publisher, genre, release date, rating) are set from the result; if the
result carries an image URL and the image directory can be created, the
image download is attempted — a successful download sets status `Success`
(and records the image path), a failed download sets status `Failed` while
the text fields remain set; if the result carries no image URL, no
download is attempted and the status is `Failed`.  The directory proviso
is forced by the source: if `create_dir_all` fails the download is skipped
and the loop continues instead. -/
theorem metadata_download_decides_status (config : ScrapingConfig)
    (rom : RomItem) (g : GameData) (b : BackoffMap)
    (pre post : List MetadataScraperModel) (s : MetadataScraperModel)
    (md : Scraper.GameMetadata)
    (hc : config.skip_cache = false) (hi : rom.env.imageExists = false)
    (hpre : ∀ t ∈ pre, ∃ e, t.search rom.name rom.console = .error e)
    (hs : s.search rom.name rom.console = .ok md)
    (hok : md.image_url = none ∨ rom.env.imageMkdirOk = true) :
    (scrape_game_metadata (pre ++ s :: post) config rom g b).game.metadata.name
        = some md.name ∧
    (scrape_game_metadata (pre ++ s :: post) config rom g b).game.metadata.developer
        = md.developer ∧
    (scrape_game_metadata (pre ++ s :: post) config rom g b).game.metadata.publisher
        = md.publisher ∧
    (scrape_game_metadata (pre ++ s :: post) config rom g b).game.metadata.genre
        = md.genre ∧
    (scrape_game_metadata (pre ++ s :: post) config rom g b).game.metadata.release_date
        = md.release_date ∧
    (scrape_game_metadata (pre ++ s :: post) config rom g b).game.metadata.rating
        = md.rating ∧
    (∀ url, md.image_url = some url →
      (scrape_game_metadata (pre ++ s :: post) config rom g b).downloads = [s.name] ∧
      (scrape_game_metadata (pre ++ s :: post) config rom g b).game.metadata.status
          = (if s.download url then .success else .failed) ∧
      (s.download url = true →
        (scrape_game_metadata (pre ++ s :: post) config rom g b).game.metadata.image_path
            = some rom.env.apiPath ∧
        (scrape_game_metadata (pre ++ s :: post) config rom g b).imageWritten = true)) ∧
    (md.image_url = none →
      (scrape_game_metadata (pre ++ s :: post) config rom g b).downloads = [] ∧
      (scrape_game_metadata (pre ++ s :: post) config rom g b).game.metadata.status
          = .failed ∧
      (scrape_game_metadata (pre ++ s :: post) config rom g b).imageWritten = false) := by
  have hne : (pre ++ s :: post).isEmpty = false := by cases pre <;> rfl
  have := scrapeMetaLoop_first_success_fields rom md s post hs hok pre hpre
    { g with metadata := { g.metadata with status := .searching } } b true false
  simpa [scrape_game_metadata, hc, hi, hne] using this

/-- Counterexample to C5 as stated: scraper "A"'s search succeeds with an
image URL, yet no image download is attempted — the image directory
creation fails, so the loop skips the download and moves on, ending with
status `Failed`. -/
theorem metadata_download_counterexample :
    scraperA.search romMkdirFail.name romMkdirFail.console = .ok mdImage ∧
    mdImage.image_url = some "http://img/zelda.png" ∧
    (scrape_game_metadata [scraperA] cfgDefault romMkdirFail
        (initGameData romMkdirFail.name) BackoffMap.empty).downloads = [] ∧
    (scrape_game_metadata [scraperA] cfgDefault romMkdirFail
        (initGameData romMkdirFail.name) BackoffMap.empty).game.metadata.status
      = .failed :=
  ⟨rfl, rfl, rfl, rfl⟩

/-- Witness for C5: scraper "A" succeeds for a healthy item; the download
is attempted and succeeds, so the status is `Success` and the text fields
are set. -/
theorem metadata_download_decides_status_witness :
    (scrape_game_metadata [scraperA] cfgDefault romFresh
        (initGameData romFresh.name) BackoffMap.empty).downloads = ["A"] ∧
    (scrape_game_metadata [scraperA] cfgDefault romFresh
        (initGameData romFresh.name) BackoffMap.empty).game.metadata.status
      = .success ∧
    (scrape_game_metadata [scraperA] cfgDefault romFresh
        (initGameData romFresh.name) BackoffMap.empty).game.metadata.developer
      = some "Nintendo" := by
  have h := metadata_download_decides_status cfgDefault romFresh
    (initGameData romFresh.name) BackoffMap.empty [] [] scraperA mdImage
    rfl rfl (by intro t ht; cases ht) rfl (Or.inr rfl)
  have himg := h.2.2.2.2.2.2.1 "http://img/zelda.png" rfl
  exact ⟨himg.1, himg.2.1, h.2.1⟩

/-! ## Claim C9 : no metadata not-found marker is ever written -/

/-- When every scraper reports the game as not found, the loop contacts
all of them in order, the `all_not_found` flag survives to the end (the
"Not found in any source" message is chosen once any scraper was tried),
no image is written, the status is `Failed`, and the backoff registry and
wait list are untouched. -/
theorem scrapeMetaLoop_all_not_found (rom : RomItem) :
    ∀ (scrapers : List MetadataScraperModel),
      (∀ t ∈ scrapers, t.search rom.name rom.console = .error .gameNotFound) →
      ∀ (g : GameData) (b : BackoffMap) (ta : Bool),
      (scrapeMetaLoop rom g b true ta scrapers).contacted
          = scrapers.map (fun t => t.name) ∧
      (scrapeMetaLoop rom g b true ta scrapers).notFoundMsg
          = (ta || !scrapers.isEmpty) ∧
      (scrapeMetaLoop rom g b true ta scrapers).imageWritten = false ∧
      (scrapeMetaLoop rom g b true ta scrapers).game.metadata.status = .failed ∧
      (scrapeMetaLoop rom g b true ta scrapers).backoff = b ∧
      (scrapeMetaLoop rom g b true ta scrapers).waits = [] := by
  intro scrapers
  induction scrapers with
  | nil => intro _ g b ta; simp [scrapeMetaLoop]
  | cons t rest ih =>
    intro h g b ta
    have ht := h t (List.mem_cons_self t rest)
    have ihr := ih (fun u hu => h u (List.mem_cons_of_mem t hu)) g b true
    simp only [scrapeMetaLoop, ht]
    simp [ihr.1, ihr.2.1, ihr.2.2.1, ihr.2.2.2.1, ihr.2.2.2.2.1, ihr.2.2.2.2.2]

/-- The orchestrator loop never touches the completion cache: the marker
state is a frame of the whole run.  (Neither `scrape` in `src/lib.rs` nor
`scrape_game_metadata`/`scrape_game_guides` in `src/scraping.rs` reference
`ScrapeCache`; its only callers are the CLI `--no-cache` reset and the web
API session handling.) -/
theorem scrapeLoop_cache_frame (ms : List MetadataScraperModel)
    (gs : List GuidesScraperModel) (config : ScrapingConfig)
    (cancel : Nat → Bool) :
    ∀ (roms : List RomItem) (st : ScrapeState),
      (scrapeLoop ms gs config cancel roms st).1.cache = st.cache := by
  intro roms
  induction roms with
  | nil => intro st; rfl
  | cons rom rest ih =>
    intro st
    simp only [scrapeLoop]
    split
    · rfl
    · exact ih (scrapeStep ms gs config st rom)

/-- C9.  When every configured metadata provider returns `NotFound` for an
item (so the cacheable `all_not_found` flag stays `true` through the whole
fallback loop, witnessed by the "Not found in any source" message), the
metadata track writes no not-found marker: the completion-cache marker
state is a frame of the entire orchestrator loop (first conjunct — the
loop never touches the cache at all), the item ends `Failed` with no image
written, so with every provider still contacted (`contacted` lists them
all) the item is re-queried on every future run. -/
theorem metadata_not_found_never_cached :
    (∀ (ms : List MetadataScraperModel) (gs : List GuidesScraperModel)
        (config : ScrapingConfig) (cancel : Nat → Bool)
        (roms : List RomItem) (st : ScrapeState),
        (scrapeLoop ms gs config cancel roms st).1.cache = st.cache) ∧
    (∀ (scrapers : List MetadataScraperModel) (config : ScrapingConfig)
        (rom : RomItem) (g : GameData) (b : BackoffMap),
        config.skip_cache = false → rom.env.imageExists = false →
        scrapers ≠ [] →
        (∀ t ∈ scrapers, t.search rom.name rom.console = .error .gameNotFound) →
        (scrape_game_metadata scrapers config rom g b).notFoundMsg = true ∧
        (scrape_game_metadata scrapers config rom g b).contacted
            = scrapers.map (fun t => t.name) ∧
        (scrape_game_metadata scrapers config rom g b).imageWritten = false ∧
        (scrape_game_metadata scrapers config rom g b).game.metadata.status
            = .failed) := by
  refine ⟨scrapeLoop_cache_frame, ?_⟩
  intro scrapers config rom g b hc hi hne hall
  have hempty : scrapers.isEmpty = false := by
    cases scrapers with
    | nil => exact absurd rfl hne
    | cons a l => rfl
  have h := scrapeMetaLoop_all_not_found rom scrapers hall
    { g with metadata := { g.metadata with status := .searching } } b false
  refine ⟨?_, ?_, ?_, ?_⟩ <;>
    simp [scrape_game_metadata, hc, hi, hempty, h.1, h.2.1, h.2.2.1, h.2.2.2.1]

/-- Witness for C9: a one-item run leaves a concrete cache untouched, and
a single not-found scraper yields the not-found message with no marker
write possible. -/
theorem metadata_not_found_never_cached_witness :
    (scrapeLoop [] [] cfgDefault (fun _ => false) [romFresh]
        { progress := { total := 1, completed := 0, current_rom := none,
                        success_count := 0, fail_count := 0, skip_count := 0 }
          backoff := BackoffMap.empty
          cache := ScrapeCache.empty.mark_guides_not_found "NES" "Zelda"
          records := [], indexAppends := [], crawledAppends := [],
          updatedRoms := [] }).1.cache
      = ScrapeCache.empty.mark_guides_not_found "NES" "Zelda" ∧
    (scrape_game_metadata [scraperNF] cfgDefault romFresh
        (initGameData romFresh.name) BackoffMap.empty).notFoundMsg = true ∧
    (scrape_game_metadata [scraperNF] cfgDefault romFresh
        (initGameData romFresh.name) BackoffMap.empty).contacted = ["NF"] := by
  have h2 := metadata_not_found_never_cached.2 [scraperNF] cfgDefault romFresh
    (initGameData romFresh.name) BackoffMap.empty rfl rfl
    (List.cons_ne_nil _ _)
    (by intro t ht
        simp only [List.mem_singleton] at ht
        subst ht
        rfl)
  exact ⟨metadata_not_found_never_cached.1 [] [] cfgDefault (fun _ => false) _ _,
    h2.1, h2.2.1⟩

/-! ## Claim C10 : session counter invariant -/

/-- One loop iteration increments `completed` by one, preserves `total`,
and increments exactly one of the three outcome counters according to the
item's merged status. -/
theorem scrapeStep_counters (ms : List MetadataScraperModel)
    (gs : List GuidesScraperModel) (config : ScrapingConfig)
    (st : ScrapeState) (rom : RomItem) :
    (scrapeStep ms gs config st rom).progress.completed
        = st.progress.completed + 1 ∧
    (scrapeStep ms gs config st rom).progress.total = st.progress.total ∧
    (scrapeStep ms gs config st rom).progress.success_count
        = st.progress.success_count +
          (if (processRom ms gs config rom st.backoff).2.1 = .success
           then 1 else 0) ∧
    (scrapeStep ms gs config st rom).progress.skip_count
        = st.progress.skip_count +
          (if (processRom ms gs config rom st.backoff).2.1 = .skipped
           then 1 else 0) ∧
    (scrapeStep ms gs config st rom).progress.fail_count
        = st.progress.fail_count +
          (if (processRom ms gs config rom st.backoff).2.1 ≠ .success ∧
              (processRom ms gs config rom st.backoff).2.1 ≠ .skipped
           then 1 else 0) := by
  by_cases h1 : (processRom ms gs config rom st.backoff).2.1 = .success
  · simp [scrapeStep, h1]
  · by_cases h2 : (processRom ms gs config rom st.backoff).2.1 = .skipped <;>
      simp [scrapeStep, h1, h2]

/-- Loop-level counter facts: `total` is preserved, `completed` grows by at
most the number of remaining items, and the partition equation
`success + skip + fail = completed` is preserved. -/
theorem scrapeLoop_counters (ms : List MetadataScraperModel)
    (gs : List GuidesScraperModel) (config : ScrapingConfig)
    (cancel : Nat → Bool) :
    ∀ (roms : List RomItem) (st : ScrapeState),
      (scrapeLoop ms gs config cancel roms st).1.progress.total
          = st.progress.total ∧
      (scrapeLoop ms gs config cancel roms st).1.progress.completed
          ≤ st.progress.completed + roms.length ∧
      (st.progress.success_count + st.progress.skip_count
          + st.progress.fail_count = st.progress.completed →
        (scrapeLoop ms gs config cancel roms st).1.progress.success_count
            + (scrapeLoop ms gs config cancel roms st).1.progress.skip_count
            + (scrapeLoop ms gs config cancel roms st).1.progress.fail_count
          = (scrapeLoop ms gs config cancel roms st).1.progress.completed) := by
  intro roms
  induction roms with
  | nil => intro st; exact ⟨rfl, Nat.le_add_right _ _, fun h => h⟩
  | cons rom rest ih =>
    intro st
    simp only [scrapeLoop]
    split
    · exact ⟨rfl, Nat.le_add_right _ _, fun h => h⟩
    · obtain ⟨hc, ht, hs, hk, hf⟩ := scrapeStep_counters ms gs config st rom
      obtain ⟨iht, ihc, ihs⟩ := ih (scrapeStep ms gs config st rom)
      refine ⟨by rw [iht, ht], by rw [hc] at ihc; simpa using ihc.trans (by omega), ?_⟩
      intro h
      apply ihs
      rw [hc, hs, hk, hf]
      rcases hcase : (processRom ms gs config rom st.backoff).2.1 <;> simp [hcase] <;> omega

/-- C10.  Throughout a run the session counters satisfy
`success + skip + fail = completed` and `completed ≤ total`: the returned
`ScrapingProgress` of every run satisfies both (first conjunct, for every
cancellation pattern, hence for every reachable stopping point), and each
processed item increments `completed` by one and exactly one of the three
outcome counters — `success` if the merged status is `Success`, `skip` if
it is `Skipped`, and `fail` otherwise, including `Pending` and `Searching`
(second conjunct). -/
theorem session_counters_partition :
    (∀ (ms : List MetadataScraperModel) (gs : List GuidesScraperModel)
        (config : ScrapingConfig) (cancel : Nat → Bool)
        (roms : List RomItem) (cache0 : ScrapeCache),
        (scrape ms gs config cancel roms cache0).progress.success_count
            + (scrape ms gs config cancel roms cache0).progress.skip_count
            + (scrape ms gs config cancel roms cache0).progress.fail_count
          = (scrape ms gs config cancel roms cache0).progress.completed ∧
        (scrape ms gs config cancel roms cache0).progress.completed
          ≤ (scrape ms gs config cancel roms cache0).progress.total) ∧
    (∀ (ms : List MetadataScraperModel) (gs : List GuidesScraperModel)
        (config : ScrapingConfig) (st : ScrapeState) (rom : RomItem),
        (scrapeStep ms gs config st rom).progress.completed
            = st.progress.completed + 1 ∧
        (scrapeStep ms gs config st rom).progress.success_count
            = st.progress.success_count +
              (if (processRom ms gs config rom st.backoff).2.1 = .success
               then 1 else 0) ∧
        (scrapeStep ms gs config st rom).progress.skip_count
            = st.progress.skip_count +
              (if (processRom ms gs config rom st.backoff).2.1 = .skipped
               then 1 else 0) ∧
        (scrapeStep ms gs config st rom).progress.fail_count
            = st.progress.fail_count +
              (if (processRom ms gs config rom st.backoff).2.1 ≠ .success ∧
                  (processRom ms gs config rom st.backoff).2.1 ≠ .skipped
               then 1 else 0)) := by
  constructor
  · intro ms gs config cancel roms cache0
    obtain ⟨ht, hcle, hsum⟩ := scrapeLoop_counters ms gs config cancel roms
      { progress := { total := roms.length, completed := 0, current_rom := none,
                      success_count := 0, fail_count := 0, skip_count := 0 }
        backoff := BackoffMap.empty
        cache := cache0
        records := []
        indexAppends := []
        crawledAppends := []
        updatedRoms := [] }
    exact ⟨hsum rfl, by simp only [scrape]; rw [ht]; simpa using hcle⟩
  · intro ms gs config st rom
    obtain ⟨hc, _, hs, hk, hf⟩ := scrapeStep_counters ms gs config st rom
    exact ⟨hc, hs, hk, hf⟩

/-! ## Claim C3 : cooperative cancellation -/

/-- Records written by one loop iteration: the item's final `game_data` is
appended to the persisted records. -/
theorem scrapeStep_records (ms : List MetadataScraperModel)
    (gs : List GuidesScraperModel) (config : ScrapingConfig)
    (st : ScrapeState) (rom : RomItem) :
    (scrapeStep ms gs config st rom).records
      = st.records ++ [(processRom ms gs config rom st.backoff).1] := rfl

/-- An un-cancelled loop iteration just steps the state. -/
theorem scrapeLoop_noCancel_cons (ms : List MetadataScraperModel)
    (gs : List GuidesScraperModel) (config : ScrapingConfig)
    (rom : RomItem) (rest : List RomItem) (st : ScrapeState) :
    scrapeLoop ms gs config (fun _ => false) (rom :: rest) st
      = scrapeLoop ms gs config (fun _ => false) rest
          (scrapeStep ms gs config st rom) := by
  simp [scrapeLoop]

/-- The un-cancelled loop splits over list append. -/
theorem scrapeLoop_append (ms : List MetadataScraperModel)
    (gs : List GuidesScraperModel) (config : ScrapingConfig) :
    ∀ (xs ys : List RomItem) (st : ScrapeState),
      scrapeLoop ms gs config (fun _ => false) (xs ++ ys) st
        = scrapeLoop ms gs config (fun _ => false) ys
            (scrapeLoop ms gs config (fun _ => false) xs st).1 := by
  intro xs
  induction xs with
  | nil => intro ys st; rfl
  | cons x xs ih =>
    intro ys st
    rw [List.cons_append, scrapeLoop_noCancel_cons, scrapeLoop_noCancel_cons, ih]

/-- The loop only ever appends to the persisted record list. -/
theorem scrapeLoop_records_extend (ms : List MetadataScraperModel)
    (gs : List GuidesScraperModel) (config : ScrapingConfig)
    (cancel : Nat → Bool) :
    ∀ (roms : List RomItem) (st : ScrapeState),
      ∃ t, (scrapeLoop ms gs config cancel roms st).1.records
        = st.records ++ t := by
  intro roms
  induction roms with
  | nil => intro st; exact ⟨[], by simp [scrapeLoop]⟩
  | cons rom rest ih =>
    intro st
    simp only [scrapeLoop]
    split
    · exact ⟨[], by simp⟩
    · obtain ⟨t, htt⟩ := ih (scrapeStep ms gs config st rom)
      refine ⟨(processRom ms gs config rom st.backoff).1 :: t, ?_⟩
      rw [htt, scrapeStep_records, List.append_assoc, List.singleton_append]

/-- An un-cancelled run writes one record per item. -/
theorem scrapeLoop_records_length (ms : List MetadataScraperModel)
    (gs : List GuidesScraperModel) (config : ScrapingConfig) :
    ∀ (roms : List RomItem) (st : ScrapeState),
      (scrapeLoop ms gs config (fun _ => false) roms st).1.records.length
        = st.records.length + roms.length := by
  intro roms
  induction roms with
  | nil => intro st; simp [scrapeLoop]
  | cons rom rest ih =>
    intro st
    rw [scrapeLoop_noCancel_cons, ih, scrapeStep_records]
    simp
    omega

/-- An un-cancelled run completes one item per rom. -/
theorem scrapeLoop_noCancel_completed (ms : List MetadataScraperModel)
    (gs : List GuidesScraperModel) (config : ScrapingConfig) :
    ∀ (roms : List RomItem) (st : ScrapeState),
      (scrapeLoop ms gs config (fun _ => false) roms st).1.progress.completed
        = st.progress.completed + roms.length := by
  intro roms
  induction roms with
  | nil => intro st; simp [scrapeLoop]
  | cons rom rest ih =>
    intro st
    rw [scrapeLoop_noCancel_cons, ih, (scrapeStep_counters ms gs config st rom).1]
    simp
    omega

/-- A cancellation token that fires once `k` items are completed makes the
loop behave exactly like the un-cancelled loop over the first
`k - completed` remaining items, and the `cancelled` local is set iff the
token fires while items remain. -/
theorem scrapeLoop_cancel_from (ms : List MetadataScraperModel)
    (gs : List GuidesScraperModel) (config : ScrapingConfig) (k : Nat) :
    ∀ (roms : List RomItem) (st : ScrapeState),
      scrapeLoop ms gs config (fun i => decide (k ≤ i)) roms st
        = ((scrapeLoop ms gs config (fun _ => false)
              (roms.take (k - st.progress.completed)) st).1,
           decide (0 < roms.length ∧
             k < st.progress.completed + roms.length)) := by
  intro roms
  induction roms with
  | nil => intro st; simp [scrapeLoop]
  | cons rom rest ih =>
    intro st
    by_cases h : k ≤ st.progress.completed
    · have ht : k - st.progress.completed = 0 := by omega
      simp [scrapeLoop, h, ht]
      omega
    · have hstep := (scrapeStep_counters ms gs config st rom).1
      have e1 : scrapeLoop ms gs config (fun i => decide (k ≤ i)) (rom :: rest) st
          = scrapeLoop ms gs config (fun i => decide (k ≤ i)) rest
              (scrapeStep ms gs config st rom) := by
        simp [scrapeLoop, h]
      rw [e1, ih, hstep]
      have htake : (rom :: rest).take (k - st.progress.completed)
          = rom :: rest.take (k - (st.progress.completed + 1)) := by
        have hsub : k - st.progress.completed
            = (k - (st.progress.completed + 1)) + 1 := by omega
        rw [hsub, List.take_succ_cons]
      rw [htake, scrapeLoop_noCancel_cons]
      have hbool : (0 < rest.length ∧
            k < st.progress.completed + 1 + rest.length)
          ↔ (0 < (rom :: rest).length ∧
            k < st.progress.completed + (rom :: rest).length) := by
        simp only [List.length_cons]
        omega
      rw [Prod.mk.injEq]
      exact ⟨rfl, by rw [decide_eq_decide]; exact hbool⟩

/-- Specialization of `scrapeLoop_cancel_from` to a fresh state: the run
cancelled once `k` items are completed is the un-cancelled run over the
first `k` items, with the `cancelled` local set iff `k < n`. -/
theorem scrapeLoop_cancel_from_zero (ms : List MetadataScraperModel)
    (gs : List GuidesScraperModel) (config : ScrapingConfig) (k : Nat)
    (roms : List RomItem) (st : ScrapeState)
    (h0 : st.progress.completed = 0) :
    scrapeLoop ms gs config (fun i => decide (k ≤ i)) roms st
      = ((scrapeLoop ms gs config (fun _ => false) (roms.take k) st).1,
         decide (k < roms.length)) := by
  rw [scrapeLoop_cancel_from, h0, Nat.sub_zero]
  congr 1
  rw [decide_eq_decide]
  omega

/-- C3, amended.  If cancellation is requested after item `k` of `n` with
`k < n`, the run stops before starting item `k+1`: exactly the first `k`
items are processed, they keep the statuses and persisted records they
reached (the cancelled run's record list is exactly the first `k` records
of the corresponding un-cancelled run), and cancellation is reported
through the final progress/log message whose status word is "Cancelled".
The returned `ScrapingProgress` has no `cancelled` field — it carries only
`total`, `completed`, `current_rom` and the three counters — so the return
value reflects cancellation only through `completed = k < total`. -/
theorem cancellation_stops_before_next_item (ms : List MetadataScraperModel)
    (gs : List GuidesScraperModel) (config : ScrapingConfig)
    (roms : List RomItem) (cache0 : ScrapeCache) (k : Nat)
    (hk : k < roms.length) :
    (scrape ms gs config (fun i => decide (k ≤ i)) roms cache0).cancelled = true ∧
    (scrape ms gs config (fun i => decide (k ≤ i)) roms cache0).statusWord
        = "Cancelled" ∧
    (scrape ms gs config (fun i => decide (k ≤ i)) roms cache0).progress.completed
        = k ∧
    (scrape ms gs config (fun i => decide (k ≤ i)) roms cache0).progress.total
        = roms.length ∧
    (scrape ms gs config (fun i => decide (k ≤ i)) roms cache0).records
        = (scrape ms gs config (fun _ => false) roms cache0).records.take k ∧
    (scrape ms gs config (fun i => decide (k ≤ i)) roms cache0).records.length
        = k := by
  have key := scrapeLoop_cancel_from_zero ms gs config k roms
    { progress := { total := roms.length, completed := 0, current_rom := none,
                    success_count := 0, fail_count := 0, skip_count := 0 }
      backoff := BackoffMap.empty, cache := cache0, records := [],
      indexAppends := [], crawledAppends := [], updatedRoms := [] } rfl
  have hcanc : (scrapeLoop ms gs config (fun i => decide (k ≤ i)) roms
      { progress := { total := roms.length, completed := 0, current_rom := none,
                      success_count := 0, fail_count := 0, skip_count := 0 }
        backoff := BackoffMap.empty, cache := cache0, records := [],
        indexAppends := [], crawledAppends := [], updatedRoms := [] }).2 = true := by
    rw [key]
    simpa using hk
  have hrec1 : (scrapeLoop ms gs config (fun i => decide (k ≤ i)) roms
      { progress := { total := roms.length, completed := 0, current_rom := none,
                      success_count := 0, fail_count := 0, skip_count := 0 }
        backoff := BackoffMap.empty, cache := cache0, records := [],
        indexAppends := [], crawledAppends := [], updatedRoms := [] }).1.records
      = (scrapeLoop ms gs config (fun _ => false) (roms.take k)
          { progress := { total := roms.length, completed := 0, current_rom := none,
                          success_count := 0, fail_count := 0, skip_count := 0 }
            backoff := BackoffMap.empty, cache := cache0, records := [],
            indexAppends := [], crawledAppends := [], updatedRoms := [] }).1.records := by
    rw [key]
  have hlenA : (scrapeLoop ms gs config (fun _ => false) (roms.take k)
      { progress := { total := roms.length, completed := 0, current_rom := none,
                      success_count := 0, fail_count := 0, skip_count := 0 }
        backoff := BackoffMap.empty, cache := cache0, records := [],
        indexAppends := [], crawledAppends := [], updatedRoms := [] }).1.records.length
      = k := by
    rw [scrapeLoop_records_length]
    simp [List.length_take]
    omega
  have hsplit := scrapeLoop_append ms gs config (roms.take k) (roms.drop k)
    { progress := { total := roms.length, completed := 0, current_rom := none,
                    success_count := 0, fail_count := 0, skip_count := 0 }
      backoff := BackoffMap.empty, cache := cache0, records := [],
      indexAppends := [], crawledAppends := [], updatedRoms := [] }
  rw [List.take_append_drop] at hsplit
  refine ⟨hcanc, ?_, ?_, ?_, ?_, ?_⟩
  · show (if (scrapeLoop ms gs config (fun i => decide (k ≤ i)) roms _).2 = true
        then "Cancelled" else "Complete") = "Cancelled"
    rw [hcanc]
    rfl
  · show (scrapeLoop ms gs config (fun i => decide (k ≤ i)) roms _).1.progress.completed = k
    rw [key, scrapeLoop_noCancel_completed]
    simp [List.length_take]
    omega
  · show (scrapeLoop ms gs config (fun i => decide (k ≤ i)) roms _).1.progress.total
        = roms.length
    rw [key]
    exact (scrapeLoop_counters ms gs config (fun _ => false) _ _).1
  · show (scrapeLoop ms gs config (fun i => decide (k ≤ i)) roms _).1.records
        = (scrapeLoop ms gs config (fun _ => false) roms _).1.records.take k
    rw [hrec1, hsplit]
    obtain ⟨t, htt⟩ := scrapeLoop_records_extend ms gs config (fun _ => false)
      (roms.drop k)
      (scrapeLoop ms gs config (fun _ => false) (roms.take k)
        { progress := { total := roms.length, completed := 0, current_rom := none,
                        success_count := 0, fail_count := 0, skip_count := 0 }
          backoff := BackoffMap.empty, cache := cache0, records := [],
          indexAppends := [], crawledAppends := [], updatedRoms := [] }).1
    rw [htt]
    exact (List.take_left' hlenA).symm
  · show (scrapeLoop ms gs config (fun i => decide (k ≤ i)) roms _).1.records.length = k
    rw [hrec1]
    exact hlenA

/-- Counterexample to C3 as stated: with one item and cancellation
requested after item 1 of 1 (the token reads cancelled at every check from
completion count 1 on), there is no further check, so the run finishes
with the `cancelled` local still `false` and reports "Complete" — and the
returned `ScrapingProgress` value carries no `cancelled = true` report at
all (the structure has no such field). -/
theorem cancellation_reported_counterexample :
    (scrape [] [] cfgDefault (fun i => decide (1 ≤ i)) [romFresh]
        ScrapeCache.empty).cancelled = false ∧
    (scrape [] [] cfgDefault (fun i => decide (1 ≤ i)) [romFresh]
        ScrapeCache.empty).statusWord = "Complete" ∧
    (scrape [] [] cfgDefault (fun i => decide (1 ≤ i)) [romFresh]
        ScrapeCache.empty).progress.completed = 1 :=
  ⟨rfl, rfl, rfl⟩

/-- Witness for C3: a two-item run cancelled after the first item stops
with one item completed and the "Cancelled" status word. -/
theorem cancellation_stops_before_next_item_witness :
    (1 < ([romFresh, romFresh] : List RomItem).length) ∧
    (scrape [] [] cfgDefault (fun i => decide (1 ≤ i)) [romFresh, romFresh]
        ScrapeCache.empty).cancelled = true ∧
    (scrape [] [] cfgDefault (fun i => decide (1 ≤ i)) [romFresh, romFresh]
        ScrapeCache.empty).statusWord = "Cancelled" ∧
    (scrape [] [] cfgDefault (fun i => decide (1 ≤ i)) [romFresh, romFresh]
        ScrapeCache.empty).progress.completed = 1 :=
  ⟨by decide,
   (cancellation_stops_before_next_item [] [] cfgDefault [romFresh, romFresh]
      ScrapeCache.empty 1 (by decide)).1,
   (cancellation_stops_before_next_item [] [] cfgDefault [romFresh, romFresh]
      ScrapeCache.empty 1 (by decide)).2.1,
   (cancellation_stops_before_next_item [] [] cfgDefault [romFresh, romFresh]
      ScrapeCache.empty 1 (by decide)).2.2.1⟩

/-! ## Claim C2 : re-running over an unchanged directory

The backoff registry threaded through the loop delays requests but never
changes what an item's processing produces; the following independence
lemmas make that explicit, so that a run's outputs can be described as a
map over its items. -/

/-- The metadata fallback loop's `game_data` and written-image outcome do
not depend on the incoming backoff registry. -/
theorem scrapeMetaLoop_game_indep (rom : RomItem) :
    ∀ (scrapers : List MetadataScraperModel) (g : GameData) (anf ta : Bool)
      (b b' : BackoffMap),
      (scrapeMetaLoop rom g b anf ta scrapers).game
          = (scrapeMetaLoop rom g b' anf ta scrapers).game ∧
      (scrapeMetaLoop rom g b anf ta scrapers).imageWritten
          = (scrapeMetaLoop rom g b' anf ta scrapers).imageWritten := by
  intro scrapers
  induction scrapers with
  | nil => intro g anf ta b b'; exact ⟨rfl, rfl⟩
  | cons s rest ih =>
    intro g anf ta b b'
    cases hsr : s.search rom.name rom.console with
    | error e =>
      cases e <;> (simp only [scrapeMetaLoop, hsr]; exact ih _ _ _ _ _)
    | ok md =>
      cases himg : md.image_url with
      | none => simp [scrapeMetaLoop, hsr, himg]
      | some url =>
        cases hmk : rom.env.imageMkdirOk with
        | false =>
          simp only [scrapeMetaLoop, hsr, himg, hmk]
          exact ih _ _ _ _ _
        | true =>
          cases hdl : s.download url <;>
            simp [scrapeMetaLoop, hsr, himg, hmk, hdl]

/-- `scrape_game_metadata`'s `game_data` and written-image outcome do not
depend on the incoming backoff registry. -/
theorem scrape_game_metadata_indep (scrapers : List MetadataScraperModel)
    (config : ScrapingConfig) (rom : RomItem) (g : GameData)
    (b b' : BackoffMap) :
    (scrape_game_metadata scrapers config rom g b).game
        = (scrape_game_metadata scrapers config rom g b').game ∧
    (scrape_game_metadata scrapers config rom g b).imageWritten
        = (scrape_game_metadata scrapers config rom g b').imageWritten := by
  unfold scrape_game_metadata
  split_ifs with h1 h2
  · exact ⟨rfl, rfl⟩
  · exact ⟨rfl, rfl⟩
  · exact scrapeMetaLoop_game_indep rom scrapers _ _ _ b b'

/-- The guides loop's `game_data` and written-guides count do not depend on
the incoming backoff registry. -/
theorem scrapeGuidesLoop_indep (rom : RomItem) :
    ∀ (gscrapers : List GuidesScraperModel) (g : GameData)
      (b b' : BackoffMap),
      (scrapeGuidesLoop rom g b gscrapers).game
          = (scrapeGuidesLoop rom g b' gscrapers).game ∧
      (scrapeGuidesLoop rom g b gscrapers).guidesWritten
          = (scrapeGuidesLoop rom g b' gscrapers).guidesWritten := by
  intro gscrapers
  induction gscrapers with
  | nil => intro g b b'; exact ⟨rfl, rfl⟩
  | cons s rest ih =>
    intro g b b'
    cases hsr : s.search_guides rom.name rom.console with
    | error e =>
      cases e <;> (simp only [scrapeGuidesLoop, hsr]; exact ih _ _ _)
    | ok paths =>
      cases hp : paths.isEmpty with
      | true =>
        simp only [scrapeGuidesLoop, hsr, hp]
        exact ih _ _ _
      | false =>
        cases hmk : rom.env.guidesMkdirOk with
        | false =>
          simp only [scrapeGuidesLoop, hsr, hp, hmk]
          exact ⟨rfl, rfl⟩
        | true =>
          simp only [scrapeGuidesLoop, hsr, hp, hmk]
          exact ⟨rfl, rfl⟩

/-- `scrape_game_guides`'s `game_data` and written-guides count do not
depend on the incoming backoff registry. -/
theorem scrape_game_guides_indep (gscrapers : List GuidesScraperModel)
    (config : ScrapingConfig) (rom : RomItem) (g : GameData)
    (b b' : BackoffMap) :
    (scrape_game_guides gscrapers config rom g b).game
        = (scrape_game_guides gscrapers config rom g b').game ∧
    (scrape_game_guides gscrapers config rom g b).guidesWritten
        = (scrape_game_guides gscrapers config rom g b').guidesWritten := by
  unfold scrape_game_guides
  split_ifs with h1
  · exact ⟨rfl, rfl⟩
  · exact scrapeGuidesLoop_indep rom gscrapers _ b b'

/-- Everything one loop iteration derives from an item except the backoff
registry — the saved record, merged status, image flag and guide count —
is independent of the registry it starts from. -/
theorem processRom_indep (ms : List MetadataScraperModel)
    (gs : List GuidesScraperModel) (config : ScrapingConfig) (rom : RomItem)
    (b b' : BackoffMap) :
    (processRom ms gs config rom b).1 = (processRom ms gs config rom b').1 ∧
    (processRom ms gs config rom b).2.1 = (processRom ms gs config rom b').2.1 ∧
    (processRom ms gs config rom b).2.2.2.1
        = (processRom ms gs config rom b').2.2.2.1 ∧
    (processRom ms gs config rom b).2.2.2.2
        = (processRom ms gs config rom b').2.2.2.2 := by
  obtain ⟨hg, hw⟩ := scrape_game_metadata_indep ms config rom
    (initGameData rom.name) b b'
  simp only [processRom]
  split_ifs with hgs
  · exact ⟨hg, by rw [hg], hw, rfl⟩
  · have s1 := scrape_game_guides_indep gs config rom
      (scrape_game_metadata ms config rom (initGameData rom.name) b).game
      (scrape_game_metadata ms config rom (initGameData rom.name) b).backoff
      (scrape_game_metadata ms config rom (initGameData rom.name) b').backoff
    have s2 : scrape_game_guides gs config rom
        (scrape_game_metadata ms config rom (initGameData rom.name) b).game
        (scrape_game_metadata ms config rom (initGameData rom.name) b').backoff
      = scrape_game_guides gs config rom
        (scrape_game_metadata ms config rom (initGameData rom.name) b').game
        (scrape_game_metadata ms config rom (initGameData rom.name) b').backoff := by
      rw [hg]
    have hgame := s1.1.trans (congrArg (fun r => r.game) s2)
    have hcnt := s1.2.trans (congrArg (fun r => r.guidesWritten) s2)
    exact ⟨hgame, by rw [hgame], hw, hcnt⟩

/-- One loop iteration appends exactly the item's outcome to the records
and its updated rom to the updated list, whatever the current backoff
registry is. -/
theorem scrapeStep_outputs (ms : List MetadataScraperModel)
    (gs : List GuidesScraperModel) (config : ScrapingConfig)
    (st : ScrapeState) (rom : RomItem) :
    (scrapeStep ms gs config st rom).records
        = st.records ++ [(itemOutcome ms gs config rom).1] ∧
    (scrapeStep ms gs config st rom).updatedRoms
        = st.updatedRoms ++ [updatedRomOf ms gs config rom] := by
  obtain ⟨h1, _, h3, h4⟩ := processRom_indep ms gs config rom st.backoff
    BackoffMap.empty
  constructor
  · rw [scrapeStep_records, h1]
    rfl
  · show st.updatedRoms ++ [updateRom rom
        (processRom ms gs config rom st.backoff).2.2.2.1
        (processRom ms gs config rom st.backoff).2.2.2.2
        (processRom ms gs config rom st.backoff).1]
      = st.updatedRoms ++ [updatedRomOf ms gs config rom]
    rw [h1, h3, h4]
    rfl

/-- An un-cancelled run's records and updated roms are maps over its
items. -/
theorem scrapeLoop_map (ms : List MetadataScraperModel)
    (gs : List GuidesScraperModel) (config : ScrapingConfig) :
    ∀ (roms : List RomItem) (st : ScrapeState),
      (scrapeLoop ms gs config (fun _ => false) roms st).1.records
          = st.records ++ roms.map (fun rom => (itemOutcome ms gs config rom).1) ∧
      (scrapeLoop ms gs config (fun _ => false) roms st).1.updatedRoms
          = st.updatedRoms ++ roms.map (updatedRomOf ms gs config) := by
  intro roms
  induction roms with
  | nil => intro st; constructor <;> simp [scrapeLoop]
  | cons rom rest ih =>
    intro st
    obtain ⟨hr, hu⟩ := scrapeStep_outputs ms gs config st rom
    obtain ⟨ihr, ihu⟩ := ih (scrapeStep ms gs config st rom)
    rw [scrapeLoop_noCancel_cons]
    constructor
    · rw [ihr, hr, List.append_assoc, List.singleton_append, List.map_cons]
    · rw [ihu, hu, List.append_assoc, List.singleton_append, List.map_cons]

/-- The metadata track never touches the rom name, the guides half, or the
error message of the record it builds. -/
theorem scrapeMetaLoop_frame (rom : RomItem) :
    ∀ (scrapers : List MetadataScraperModel) (g : GameData) (b : BackoffMap)
      (anf ta : Bool),
      (scrapeMetaLoop rom g b anf ta scrapers).game.rom_name = g.rom_name ∧
      (scrapeMetaLoop rom g b anf ta scrapers).game.guides = g.guides ∧
      (scrapeMetaLoop rom g b anf ta scrapers).game.metadata.error_message
          = g.metadata.error_message := by
  intro scrapers
  induction scrapers with
  | nil => intro g b anf ta; exact ⟨rfl, rfl, rfl⟩
  | cons s rest ih =>
    intro g b anf ta
    cases hsr : s.search rom.name rom.console with
    | error e =>
      cases e <;> (simp only [scrapeMetaLoop, hsr]; exact ih _ _ _ _)
    | ok md =>
      cases himg : md.image_url with
      | none => simp [scrapeMetaLoop, hsr, himg]
      | some url =>
        cases hmk : rom.env.imageMkdirOk with
        | false =>
          simp only [scrapeMetaLoop, hsr, himg, hmk]
          exact ih _ _ _ _
        | true =>
          cases hdl : s.download url <;>
            (simp only [scrapeMetaLoop, hsr, himg, hmk, hdl, Bool.not_true]
             exact ⟨rfl, rfl, rfl⟩)

/-- `scrape_game_metadata` never touches the rom name, the guides half, or
the error message. -/
theorem scrape_game_metadata_frame (scrapers : List MetadataScraperModel)
    (config : ScrapingConfig) (rom : RomItem) (g : GameData) (b : BackoffMap) :
    (scrape_game_metadata scrapers config rom g b).game.rom_name = g.rom_name ∧
    (scrape_game_metadata scrapers config rom g b).game.guides = g.guides ∧
    (scrape_game_metadata scrapers config rom g b).game.metadata.error_message
        = g.metadata.error_message := by
  unfold scrape_game_metadata
  split_ifs with h1 h2
  · cases rom.env.stored <;> exact ⟨rfl, rfl, rfl⟩
  · exact ⟨rfl, rfl, rfl⟩
  · exact scrapeMetaLoop_frame rom scrapers _ b true false

/-- The guides track never touches the metadata half or the rom name. -/
theorem scrapeGuidesLoop_frame (rom : RomItem) :
    ∀ (gscrapers : List GuidesScraperModel) (g : GameData) (b : BackoffMap),
      (scrapeGuidesLoop rom g b gscrapers).game.metadata = g.metadata ∧
      (scrapeGuidesLoop rom g b gscrapers).game.rom_name = g.rom_name := by
  intro gscrapers
  induction gscrapers with
  | nil => intro g b; exact ⟨rfl, rfl⟩
  | cons s rest ih =>
    intro g b
    cases hsr : s.search_guides rom.name rom.console with
    | error e =>
      cases e <;> (simp only [scrapeGuidesLoop, hsr]; exact ih _ _)
    | ok paths =>
      cases hp : paths.isEmpty with
      | true =>
        simp only [scrapeGuidesLoop, hsr, hp]
        exact ih _ _
      | false =>
        cases hmk : rom.env.guidesMkdirOk with
        | false =>
          simp only [scrapeGuidesLoop, hsr, hp, hmk]
          exact ⟨rfl, rfl⟩
        | true =>
          simp only [scrapeGuidesLoop, hsr, hp, hmk]
          exact ⟨rfl, rfl⟩

/-- `scrape_game_guides` never touches the metadata half or the rom name. -/
theorem scrape_game_guides_frame (gscrapers : List GuidesScraperModel)
    (config : ScrapingConfig) (rom : RomItem) (g : GameData) (b : BackoffMap) :
    (scrape_game_guides gscrapers config rom g b).game.metadata = g.metadata ∧
    (scrape_game_guides gscrapers config rom g b).game.rom_name = g.rom_name := by
  unfold scrape_game_guides
  split_ifs with h1
  · exact ⟨rfl, rfl⟩
  · exact scrapeGuidesLoop_frame rom gscrapers _ b

/-- A metadata status of `Success` can only come out of the fallback loop
through a completed image download: the image was written and the record's
image path points at it. -/
theorem scrapeMetaLoop_success (rom : RomItem) :
    ∀ (scrapers : List MetadataScraperModel) (g : GameData) (b : BackoffMap)
      (anf ta : Bool),
      (scrapeMetaLoop rom g b anf ta scrapers).game.metadata.status = .success →
      (scrapeMetaLoop rom g b anf ta scrapers).imageWritten = true ∧
      (scrapeMetaLoop rom g b anf ta scrapers).game.metadata.image_path
          = some rom.env.apiPath := by
  intro scrapers
  induction scrapers with
  | nil =>
    intro g b anf ta h
    simp only [scrapeMetaLoop] at h
    cases h
  | cons s rest ih =>
    intro g b anf ta
    cases hsr : s.search rom.name rom.console with
    | error e =>
      cases e <;> (simp only [scrapeMetaLoop, hsr]; exact ih _ _ _ _)
    | ok md =>
      cases himg : md.image_url with
      | none =>
        intro h
        simp only [scrapeMetaLoop, hsr, himg] at h
        cases h
      | some url =>
        cases hmk : rom.env.imageMkdirOk with
        | false =>
          simp only [scrapeMetaLoop, hsr, himg, hmk]
          exact ih _ _ _ _
        | true =>
          cases hdl : s.download url with
          | true =>
            intro _
            simp only [scrapeMetaLoop, hsr, himg, hmk, hdl]
            exact ⟨rfl, rfl⟩
          | false =>
            intro h
            simp only [scrapeMetaLoop, hsr, himg, hmk, hdl] at h
            cases h

/-- The fallback loop only ever ends in `Success` or `Failed`. -/
theorem scrapeMetaLoop_not_skipped (rom : RomItem) :
    ∀ (scrapers : List MetadataScraperModel) (g : GameData) (b : BackoffMap)
      (anf ta : Bool),
      (scrapeMetaLoop rom g b anf ta scrapers).game.metadata.status = .success ∨
      (scrapeMetaLoop rom g b anf ta scrapers).game.metadata.status = .failed := by
  intro scrapers
  induction scrapers with
  | nil => intro g b anf ta; exact Or.inr rfl
  | cons s rest ih =>
    intro g b anf ta
    cases hsr : s.search rom.name rom.console with
    | error e =>
      cases e <;> (simp only [scrapeMetaLoop, hsr]; exact ih _ _ _ _)
    | ok md =>
      cases himg : md.image_url with
      | none => simp [scrapeMetaLoop, hsr, himg]
      | some url =>
        cases hmk : rom.env.imageMkdirOk with
        | false =>
          simp only [scrapeMetaLoop, hsr, himg, hmk]
          exact ih _ _ _ _
        | true =>
          cases hdl : s.download url with
          | true =>
            simp only [scrapeMetaLoop, hsr, himg, hmk, hdl]
            exact Or.inl rfl
          | false =>
            simp only [scrapeMetaLoop, hsr, himg, hmk, hdl]
            exact Or.inr rfl

/-- A `Success` metadata status out of `scrape_game_metadata` (entered with
a fresh `Pending` record) means the image download completed: the image is
on disk and the record's image path points at it. -/
theorem scrape_game_metadata_success (scrapers : List MetadataScraperModel)
    (config : ScrapingConfig) (rom : RomItem) (g : GameData) (b : BackoffMap)
    (hpend : g.metadata.status = .pending) :
    (scrape_game_metadata scrapers config rom g b).game.metadata.status
        = .success →
    (scrape_game_metadata scrapers config rom g b).imageWritten = true ∧
    (scrape_game_metadata scrapers config rom g b).game.metadata.image_path
        = some rom.env.apiPath := by
  unfold scrape_game_metadata
  split_ifs with h1 h2
  · intro h
    exact absurd h (by cases rom.env.stored <;> decide)
  · intro h
    rw [hpend] at h
    exact absurd h (by decide)
  · exact scrapeMetaLoop_success rom scrapers _ b true false

/-- A `Skipped` metadata status out of `scrape_game_metadata` (entered with
a fresh `Pending` record) means the fast path was taken: the image already
existed, the record's image path points at it, and nothing was written. -/
theorem scrape_game_metadata_skipped (scrapers : List MetadataScraperModel)
    (config : ScrapingConfig) (rom : RomItem) (g : GameData) (b : BackoffMap)
    (hpend : g.metadata.status = .pending) :
    (scrape_game_metadata scrapers config rom g b).game.metadata.status
        = .skipped →
    rom.env.imageExists = true ∧
    (scrape_game_metadata scrapers config rom g b).game.metadata.image_path
        = some rom.env.apiPath ∧
    (scrape_game_metadata scrapers config rom g b).imageWritten = false := by
  unfold scrape_game_metadata
  split_ifs with h1 h2
  · intro _
    refine ⟨?_, by cases rom.env.stored <;> rfl, rfl⟩
    simp only [Bool.and_eq_true] at h1
    exact h1.2
  · intro h
    rw [hpend] at h
    exact absurd h (by decide)
  · intro h
    rcases scrapeMetaLoop_not_skipped rom scrapers
        { g with metadata := { g.metadata with status := .searching } } b true false
      with hs | hs <;> (rw [hs] at h; exact absurd h (by decide))

/-- Facts about a first-run item outcome: the record keeps the rom's name,
never carries an error message, keeps the untouched guides half when no
guide scraper is configured, and its metadata status ties the image-on-disk
facts together (Success ⟹ the image was written; Skipped ⟹ the image
already existed; both point the record at the image's api path). -/
theorem itemOutcome_first_run (ms : List MetadataScraperModel)
    (gs : List GuidesScraperModel) (config : ScrapingConfig) (rom : RomItem) :
    (itemOutcome ms gs config rom).1.rom_name = rom.name ∧
    (itemOutcome ms gs config rom).1.metadata.error_message = none ∧
    (gs.isEmpty = true →
      (itemOutcome ms gs config rom).1.guides
        = { status := .pending, count := none }) ∧
    ((itemOutcome ms gs config rom).1.metadata.status = .success →
      (itemOutcome ms gs config rom).2.2.1 = true ∧
      (itemOutcome ms gs config rom).1.metadata.image_path
          = some rom.env.apiPath) ∧
    ((itemOutcome ms gs config rom).1.metadata.status = .skipped →
      rom.env.imageExists = true ∧
      (itemOutcome ms gs config rom).1.metadata.image_path
          = some rom.env.apiPath) := by
  have hmfr := scrape_game_metadata_frame ms config rom
    (initGameData rom.name) BackoffMap.empty
  have hsucc := scrape_game_metadata_success ms config rom
    (initGameData rom.name) BackoffMap.empty rfl
  have hskip := scrape_game_metadata_skipped ms config rom
    (initGameData rom.name) BackoffMap.empty rfl
  simp only [itemOutcome, processRom]
  split_ifs with hgs
  · exact ⟨hmfr.1.trans rfl, hmfr.2.2.trans rfl, fun _ => hmfr.2.1.trans rfl,
      hsucc, fun h => ⟨(hskip h).1, (hskip h).2.1⟩⟩
  · have hgfr := scrape_game_guides_frame gs config rom
      (scrape_game_metadata ms config rom (initGameData rom.name) BackoffMap.empty).game
      (scrape_game_metadata ms config rom (initGameData rom.name) BackoffMap.empty).backoff
    refine ⟨hgfr.2.trans (hmfr.1.trans rfl), ?_, ?_, ?_, ?_⟩
    · rw [hgfr.1]
      exact hmfr.2.2.trans rfl
    · intro hgs'
      exact absurd hgs' hgs
    · intro h
      rw [hgfr.1] at h
      exact ⟨(hsucc h).1, by rw [hgfr.1]; exact (hsucc h).2⟩
    · intro h
      rw [hgfr.1] at h
      exact ⟨(hskip h).1, by rw [hgfr.1]; exact (hskip h).2.1⟩

/-- Processing an item whose image is already on disk (cache honoured,
scrapers configured, stored record present) takes the fast paths on both
tracks: the resulting record is the stored text metadata under a `Skipped`
status, the guides half is skipped with the count filled from the stored
record or from disk, and the merged item status is `Skipped`. -/
theorem itemOutcome_cached (ms : List MetadataScraperModel)
    (gs : List GuidesScraperModel) (config : ScrapingConfig) (rom2 : RomItem)
    (rec1 : GameData)
    (hc : config.skip_cache = false) (hm : ms.isEmpty = false)
    (himg : rom2.env.imageExists = true)
    (hstored : rom2.env.stored = some rec1)
    (hg : gs = [] ∨ 0 < rom2.env.guidesCount) :
    (itemOutcome ms gs config rom2).1
      = { rom_name := rom2.name
          metadata := { status := .skipped
                        name := rec1.metadata.name
                        developer := rec1.metadata.developer
                        publisher := rec1.metadata.publisher
                        genre := rec1.metadata.genre
                        release_date := rec1.metadata.release_date
                        rating := rec1.metadata.rating
                        image_path := some rom2.env.apiPath
                        error_message := none }
          guides := if gs.isEmpty then { status := .pending, count := none }
                    else { status := .skipped
                           count := rec1.guides.count.or
                             (some rom2.env.guidesCount) } } ∧
    (itemOutcome ms gs config rom2).2.1 = .skipped := by
  have hcond : (!config.skip_cache && !ms.isEmpty && rom2.env.imageExists) = true := by
    rw [hc, hm, himg]
    rfl
  have hm1 : scrape_game_metadata ms config rom2 (initGameData rom2.name)
      BackoffMap.empty
      = { game := { rom_name := rom2.name
                    metadata := { status := .skipped
                                  name := rec1.metadata.name
                                  developer := rec1.metadata.developer
                                  publisher := rec1.metadata.publisher
                                  genre := rec1.metadata.genre
                                  release_date := rec1.metadata.release_date
                                  rating := rec1.metadata.rating
                                  image_path := some rom2.env.apiPath
                                  error_message := none }
                    guides := { status := .pending, count := none } }
          retval := true, contacted := [], downloads := [], waits := [],
          backoff := BackoffMap.empty, imageWritten := false,
          notFoundMsg := false } := by
    unfold scrape_game_metadata
    rw [hcond, if_pos rfl, hstored]
    rfl
  by_cases hgs : gs.isEmpty = true
  · constructor
    · simp only [itemOutcome, processRom, hgs, eq_self_iff_true, if_true]
      rw [hm1]
    · simp only [itemOutcome, processRom, hgs, eq_self_iff_true, if_true]
      rw [hm1]
  · have hcnt : 0 < rom2.env.guidesCount := by
      rcases hg with h | h
      · subst h
        exact absurd rfl hgs
      · exact h
    have hgcond : (!config.skip_cache && decide (0 < rom2.env.guidesCount)) = true := by
      rw [hc]
      simpa using hcnt
    have hg1 : scrape_game_guides gs config rom2
        (scrape_game_metadata ms config rom2 (initGameData rom2.name)
          BackoffMap.empty).game
        (scrape_game_metadata ms config rom2 (initGameData rom2.name)
          BackoffMap.empty).backoff
      = { game := { rom_name := rom2.name
                    metadata := { status := .skipped
                                  name := rec1.metadata.name
                                  developer := rec1.metadata.developer
                                  publisher := rec1.metadata.publisher
                                  genre := rec1.metadata.genre
                                  release_date := rec1.metadata.release_date
                                  rating := rec1.metadata.rating
                                  image_path := some rom2.env.apiPath
                                  error_message := none }
                    guides := { status := .skipped
                                count := rec1.guides.count.or
                                  (some rom2.env.guidesCount) } }
          contacted := [], waits := [], backoff := BackoffMap.empty,
          guidesWritten := 0 } := by
      rw [hm1]
      unfold scrape_game_guides
      rw [hgcond, if_pos rfl, hstored]
      dsimp only
      cases hoc : rec1.guides.count <;> rfl
    constructor
    · simp only [itemOutcome, processRom, if_neg hgs]
      rw [hg1]
    · simp only [itemOutcome, processRom, if_neg hgs]
      rw [hg1]
      rfl

/-- An un-cancelled `scrape` run writes, per item in order, exactly the
item's outcome record, and leaves each rom's on-disk environment updated by
exactly that item's effects. -/
theorem scrape_outputs_map (ms : List MetadataScraperModel)
    (gs : List GuidesScraperModel) (config : ScrapingConfig)
    (roms : List RomItem) (c0 : ScrapeCache) :
    (scrape ms gs config (fun _ => false) roms c0).records
        = roms.map (fun rom => (itemOutcome ms gs config rom).1) ∧
    (scrape ms gs config (fun _ => false) roms c0).updatedRoms
        = roms.map (updatedRomOf ms gs config) := by
  constructor
  · show (scrapeLoop ms gs config (fun _ => false) roms
      { progress := { total := roms.length, completed := 0, current_rom := none,
                      success_count := 0, fail_count := 0, skip_count := 0 }
        backoff := BackoffMap.empty, cache := c0, records := [],
        indexAppends := [], crawledAppends := [],
        updatedRoms := [] }).1.records = _
    rw [(scrapeLoop_map ms gs config roms _).1]
    rfl
  · show (scrapeLoop ms gs config (fun _ => false) roms
      { progress := { total := roms.length, completed := 0, current_rom := none,
                      success_count := 0, fail_count := 0, skip_count := 0 }
        backoff := BackoffMap.empty, cache := c0, records := [],
        indexAppends := [], crawledAppends := [],
        updatedRoms := [] }).1.updatedRoms = _
    rw [(scrapeLoop_map ms gs config roms _).2]
    rfl

/-- C2, amended.  Over an unchanged directory with unchanged provider
responses and no forced refresh, a second orchestrator run yields `Skipped`
— not for every item, but for every item whose first run left its
artifacts on disk: metadata status `Success` or `Skipped` (so the image
file is present) and, when guide scrapers are configured, a non-empty
guides directory.  For such an item the second run's persisted record is
the first run's record except that the metadata status becomes `Skipped`
and the guides half becomes `Skipped` with a count taken from the stored
record or, failing that, from the on-disk guide count; the item's merged
second-run status is `Skipped`.  (Items without those artifacts are
re-scraped — see the counterexample.) -/
theorem second_run_skips_completed_items (ms : List MetadataScraperModel)
    (gs : List GuidesScraperModel) (config : ScrapingConfig)
    (roms : List RomItem) (cache0 : ScrapeCache) (i : Nat)
    (rec1 : GameData) (rom2 : RomItem)
    (hc : config.skip_cache = false) (hm : ms.isEmpty = false)
    (hrec : (scrape ms gs config (fun _ => false) roms cache0).records[i]?
      = some rec1)
    (hrom : (scrape ms gs config (fun _ => false) roms cache0).updatedRoms[i]?
      = some rom2)
    (hstat : rec1.metadata.status = .success ∨ rec1.metadata.status = .skipped)
    (hg : gs = [] ∨ 0 < rom2.env.guidesCount) :
    (scrape ms gs config (fun _ => false)
        (scrape ms gs config (fun _ => false) roms cache0).updatedRoms
        (scrape ms gs config (fun _ => false) roms cache0).cache).records[i]?
      = some { rom_name := rec1.rom_name
               metadata := { rec1.metadata with status := .skipped }
               guides := if gs.isEmpty then rec1.guides
                         else { status := .skipped
                                count := rec1.guides.count.or
                                  (some rom2.env.guidesCount) } } ∧
    (itemOutcome ms gs config rom2).2.1 = .skipped := by
  have hrun1rec := (scrape_outputs_map ms gs config roms cache0).1
  have hrun1upd := (scrape_outputs_map ms gs config roms cache0).2
  rw [hrun1rec, List.getElem?_map] at hrec
  obtain ⟨romi, hgi, hfi⟩ := Option.map_eq_some'.1 hrec
  rw [hrun1upd, List.getElem?_map, hgi] at hrom
  have hui : updatedRomOf ms gs config romi = rom2 := by simpa using hrom
  subst hfi
  subst hui
  obtain ⟨hname, herr, hguidesE, hsucc, hskip⟩ :=
    itemOutcome_first_run ms gs config romi
  have himgex : (updatedRomOf ms gs config romi).env.imageExists = true := by
    rcases hstat with h | h
    · have hiw := (hsucc h).1
      simp [updatedRomOf, updateRom, hiw]
    · have hie := (hskip h).1
      simp [updatedRomOf, updateRom, hie]
  have hstored2 : (updatedRomOf ms gs config romi).env.stored
      = some (itemOutcome ms gs config romi).1 := rfl
  have hap : (updatedRomOf ms gs config romi).env.apiPath = romi.env.apiPath := rfl
  have hn2 : (updatedRomOf ms gs config romi).name = romi.name := rfl
  have hpath : (itemOutcome ms gs config romi).1.metadata.image_path
      = some romi.env.apiPath := by
    rcases hstat with h | h
    · exact (hsucc h).2
    · exact (hskip h).2
  obtain ⟨hcached, hstatus2⟩ := itemOutcome_cached ms gs config
    (updatedRomOf ms gs config romi) ((itemOutcome ms gs config romi).1)
    hc hm himgex hstored2 hg
  have hrun2rec := (scrape_outputs_map ms gs config
    (scrape ms gs config (fun _ => false) roms cache0).updatedRoms
    (scrape ms gs config (fun _ => false) roms cache0).cache).1
  refine ⟨?_, hstatus2⟩
  rw [hrun2rec, hrun1upd, List.getElem?_map, List.getElem?_map, hgi]
  simp only [Option.map_some']
  rw [hcached]
  refine congrArg some ?_
  simp only [GameData.mk.injEq]
  refine ⟨hn2.trans hname.symm, ?_, ?_⟩
  · simp only [GameMetadata.mk.injEq, eq_self_iff_true, true_and]
    exact ⟨hpath.symm, herr.symm⟩
  · by_cases hgsE : gs.isEmpty = true
    · rw [if_pos hgsE, if_pos hgsE, hguidesE hgsE]
    · rw [if_neg hgsE, if_neg hgsE]

/-- Counterexample to C2 as stated: two items, fixed provider responses
("Mario" found with image, "Zelda" never found), no forced refresh.  The
first run completes (Mario succeeds, Zelda fails).  On the second run over
the unchanged directory, only one item is `Skipped` — Zelda is re-scraped
and fails again (`skip = 1`, `fail = 1`, not `skip = 2`) — and the
persisted records are not unchanged (Mario's record's status flips from
`Success` to `Skipped`). -/
theorem second_run_counterexample :
    (scrape [scraperMix] [] cfgDefault (fun _ => false) [romMario, romFresh]
        ScrapeCache.empty).progress.completed = 2 ∧
    (scrape [scraperMix] [] cfgDefault (fun _ => false)
        (scrape [scraperMix] [] cfgDefault (fun _ => false) [romMario, romFresh]
          ScrapeCache.empty).updatedRoms
        (scrape [scraperMix] [] cfgDefault (fun _ => false) [romMario, romFresh]
          ScrapeCache.empty).cache).progress.skip_count = 1 ∧
    (scrape [scraperMix] [] cfgDefault (fun _ => false)
        (scrape [scraperMix] [] cfgDefault (fun _ => false) [romMario, romFresh]
          ScrapeCache.empty).updatedRoms
        (scrape [scraperMix] [] cfgDefault (fun _ => false) [romMario, romFresh]
          ScrapeCache.empty).cache).progress.fail_count = 1 ∧
    (scrape [scraperMix] [] cfgDefault (fun _ => false)
        (scrape [scraperMix] [] cfgDefault (fun _ => false) [romMario, romFresh]
          ScrapeCache.empty).updatedRoms
        (scrape [scraperMix] [] cfgDefault (fun _ => false) [romMario, romFresh]
          ScrapeCache.empty).cache).records
      ≠ (scrape [scraperMix] [] cfgDefault (fun _ => false) [romMario, romFresh]
          ScrapeCache.empty).records := by
  refine ⟨rfl, rfl, rfl, by decide⟩

/-- Witness for C2: one item scraped successfully by "A"; the second run's
record is the first run's record with status `Skipped`. -/
theorem second_run_skips_completed_items_witness :
    (scrape [scraperA] [] cfgDefault (fun _ => false) [romFresh]
        ScrapeCache.empty).records[0]? = some rec1W ∧
    (scrape [scraperA] [] cfgDefault (fun _ => false) [romFresh]
        ScrapeCache.empty).updatedRoms[0]? = some rom2W ∧
    (scrape [scraperA] [] cfgDefault (fun _ => false)
        (scrape [scraperA] [] cfgDefault (fun _ => false) [romFresh]
          ScrapeCache.empty).updatedRoms
        (scrape [scraperA] [] cfgDefault (fun _ => false) [romFresh]
          ScrapeCache.empty).cache).records[0]?
      = some { rom_name := rec1W.rom_name
               metadata := { rec1W.metadata with status := .skipped }
               guides := if ([] : List GuidesScraperModel).isEmpty then rec1W.guides
                         else { status := .skipped
                                count := rec1W.guides.count.or
                                  (some rom2W.env.guidesCount) } } := by
  refine ⟨rfl, rfl, ?_⟩
  exact (second_run_skips_completed_items [scraperA] [] cfgDefault [romFresh]
    ScrapeCache.empty 0 rec1W rom2W rfl rfl rfl rfl (Or.inl rfl) (Or.inl rfl)).1
